import Mathlib

/-!
# DeliverySystem: order lifecycle handlers

A shallow embedding of the request handlers of the order service
(`services/order-service/routes/orders.js`, `routes/delivery.js`), of the
delivery service's `OrderService.updateOrderStatus`, generic update
(`routes/orderRoutes.js`) and report creation (`routes/deliveryRoutes.js`), of
the payment service's webhook (`server.js`), of the notification service's
order watcher (`services/orderWatcher.js`) and of the status helpers of the
restaurant UI (`pages/RestaurantOrders.js`), together with the properties of
the order lifecycle that hold of them.

Modelling conventions.
* A collection is a list of documents; `findById` returns the first document
  with the given `_id`, `save` replaces the documents carrying the saved
  document's `_id`.
* A handler is a function from the collection and the request to the response
  and the collection afterwards.  The `auth` middleware has already run: a
  handler that sits behind it receives the authenticated `User`.
* `new Date()` is the parameter `now`.  Amounts and prices are whole numbers
  with exact arithmetic, quantities are natural numbers.  The code computes
  with IEEE doubles, which agree with this on whole numbers as long as every
  intermediate result stays below `2^53` in absolute value; fractional amounts
  and larger values are outside the model.
* An `_id` is a well-formed ObjectId.  (For another string `findById` raises a
  `CastError` and the handler answers 500; that case is not modelled.)
* The handlers of one sequence are served one after the other: each runs from
  its `findById` to its `save` before the next starts.  Interleaved requests
  are modelled separately, step by step (`claimStep`).
* The services a handler calls over HTTP are parameters giving their replies;
  where the route called is one modelled here (the webhook's request to
  `confirm-card-payment`), the reply is the one that route gives.
* The store is available and the documents of the collection are valid for the
  schema, so `save` of a loaded document passes validation.  A `catch` branch is
  reached only through an exception raised by the handler's own code or by the
  validation of a new document, and is then part of the model.  The `trim` and
  `lowercase` setters of the schemas are not modelled.
  The `createdAt`/`updatedAt` bookkeeping of the schema option
  `timestamps: true` is not part of the document model.
* `status`, `paymentStatus` and `paymentMethod` range over the schema enums of
  `models/index.js`, the schema under which the model `Order` is registered
  (`routes/orders.js` is loaded first and `models/Order.js` then receives the
  registered model).  That schema has no path `paymentDetails`: the handlers
  assign the sub-document to the order object they hold and echo it in their
  answer, but `save` does not write it.  A stored document keeps the
  `paymentDetails` it was inserted with, if any.
-/

namespace DeliverySystem

/-! ## Data model -/

/-- Order status, the enum of `orderSchema.status` in `models/index.js`. -/
inductive Status where
  | pending | confirmed | preparing | ready | picked_up | delivered | cancelled
  deriving DecidableEq, Repr

/-- Payment status, the enum of `orderSchema.paymentStatus`. -/
inductive PaymentStatus where
  | pending | paid | failed
  deriving DecidableEq, Repr

/-- Payment method, the enum of `orderSchema.paymentMethod`. -/
inductive PaymentMethod where
  | cash | card
  deriving DecidableEq, Repr

/-- One line of an order (`orderItemSchema`). -/
structure OrderItem where
  menuItemId : String
  name : String
  quantity : Nat
  price : Int
  specialInstructions : String
  deriving DecidableEq, Repr

/-- The `paymentDetails` object.  A handler assigns a fresh object to the order
it holds, so a key the handler does not write is absent (`none`) in it. -/
structure PaymentDetails where
  paymentIntentId : Option String := none
  paidAt : Option Nat := none
  amount : Option Int := none
  method : Option PaymentMethod := none
  status : Option String := none
  error : Option String := none
  failedAt : Option Nat := none
  createdAt : Option Nat := none
  updatedAt : Option Nat := none
  deriving DecidableEq, Repr

/-- The `userDetails` sub-document. -/
structure UserDetails where
  name : String
  email : String
  phone : String
  address : String
  deriving DecidableEq, Repr

/-- An order document. -/
structure Order where
  _id : String
  user : String
  restaurant : String
  items : List OrderItem
  totalAmount : Int
  deliveryFee : Int
  deliveryAddress : String
  status : Status
  paymentStatus : PaymentStatus
  paymentMethod : PaymentMethod
  deliveryPerson : Option String
  notes : String
  paymentDetails : Option PaymentDetails
  userDetails : UserDetails
  deriving DecidableEq, Repr

/-- The authenticated requester, `req.user` as the `auth` middleware builds it. -/
structure User where
  _id : String
  role : String
  restaurant : Option String
  deriving DecidableEq, Repr

/-- What a handler answers: the HTTP status code, the `message` of the body
(empty when the body has none) and the order carried by the body, if any. -/
structure Response where
  code : Nat
  message : String
  order : Option Order
  deriving DecidableEq, Repr

/-- The orders collection. -/
abbrev Store := List Order

/-! ## Store primitives -/

/-- `Order.findById(id)`. -/
def findById (s : Store) (id : String) : Option Order :=
  s.find? (fun o => o._id == id)

/-- `Order.findOne({ _id: id, restaurant: r })` where `r` is
`req.user.restaurant` (absent for a requester without a restaurant). -/
def findOne (s : Store) (id : String) (r : Option String) : Option Order :=
  s.find? (fun o => o._id == id && some o.restaurant == r)

/-- `order.save()` for a document loaded from the collection. -/
def save (s : Store) (order : Order) : Store :=
  s.map (fun o => if o._id == order._id then order else o)

/-- What `order.save()` and an update with `$set` write of the assignments a
handler made to a loaded document: the paths of the registered schema
(`models/index.js`).  `paymentDetails` is no path of that schema, so whatever
the handler assigns to it is not written and the stored value stays as loaded. -/
def persisted (loaded assigned : Order) : Order :=
  { assigned with paymentDetails := loaded.paymentDetails }

/-- The payment reference stored on an order,
`order.paymentDetails.paymentIntentId`. -/
def paymentReference (o : Order) : Option String :=
  o.paymentDetails.bind (fun d => d.paymentIntentId)

/-! ## Order service: status update (`orders.js`, `PATCH /:id/status`) -/

/-- The handler `router.patch('/:id/status', auth, ...)`. -/
def patchStatus (s : Store) (user : User) (id : String) (status : Status) :
    Response × Store :=
  match findOne s id user.restaurant with
  | none => (⟨404, "Order not found", none⟩, s)
  | some order =>
    let order := { order with status := status }
    (⟨200, "", some order⟩, save s order)

/-! ## Delivery service: `OrderService.updateOrderStatus` -/

/-- `Order.findByIdAndUpdate(orderId, { status }, { new: true })`: the updated
document (`null` when there is none) and the collection afterwards. -/
def updateOrderStatus (s : Store) (orderId : String) (status : Status) :
    Option Order × Store :=
  match findById s orderId with
  | none => (none, s)
  | some order =>
    let order := { order with status := status }
    (some order, save s order)

/-! ## Order service: payment handlers (`orders.js`)

The handlers answer with a projection of the order object they hold (`_id`,
`status`, `paymentStatus`, and the `paymentDetails` they assigned to it); the
response here carries that object.  What is written to the collection is
`persisted`: the assigned `paymentDetails` are not part of it. -/

/-- The handler `router.post('/:orderId/payment-success', ...)`; the body
carries `paymentIntentId` and `amount`. -/
def paymentSuccess (s : Store) (orderId : String) (paymentIntentId : Option String)
    (amount : Option Int) (now : Nat) : Response × Store :=
  match findById s orderId with
  | none => (⟨404, "Order not found", none⟩, s)
  | some loaded =>
    let order := { loaded with
      paymentStatus := .paid
      status := .confirmed
      paymentDetails := some {
        paymentIntentId := paymentIntentId
        paidAt := some now
        amount := amount
        method := some loaded.paymentMethod
        status := some "succeeded" } }
    (⟨200, "Payment processed successfully", some order⟩, save s (persisted loaded order))

/-- The handler `router.post('/:orderId/payment-failed', auth, ...)`; the body
carries `paymentIntentId` and `error`. -/
def paymentFailed (s : Store) (orderId : String) (paymentIntentId : Option String)
    (paymentError : Option String) (now : Nat) : Response × Store :=
  match findById s orderId with
  | none => (⟨404, "Order not found", none⟩, s)
  | some loaded =>
    let order := { loaded with
      paymentStatus := .failed
      status := .cancelled
      paymentDetails := some {
        paymentIntentId := paymentIntentId
        error := paymentError
        failedAt := some now } }
    (⟨200, "", some (persisted loaded order)⟩, save s (persisted loaded order))

/-- The value of `paidAt || new Date()`: an absent or zero `paidAt` is falsy. -/
def paidAtOrNow (paidAt : Option Nat) (now : Nat) : Nat :=
  match paidAt with
  | some t => if t = 0 then now else t
  | none => now

/-- The handler `router.post('/:orderId/update-payment', ...)`; the body
carries `paymentIntentId`, `paymentStatus` (not read after destructuring),
`paidAt` and `amount`. -/
def updatePayment (s : Store) (orderId : String) (paymentIntentId : Option String)
    (paidAt : Option Nat) (amount : Option Int) (now : Nat) : Response × Store :=
  match findById s orderId with
  | none => (⟨404, "Order not found", none⟩, s)
  | some loaded =>
    let order := { loaded with
      paymentStatus := .paid
      paymentDetails := some {
        paymentIntentId := paymentIntentId
        paidAt := some (paidAtOrNow paidAt now)
        method := some loaded.paymentMethod
        amount := amount
        status := some "succeeded" } }
    (⟨200, "Payment status updated successfully", some order⟩, save s (persisted loaded order))

/-- The handler `router.post('/:orderId/confirm-card-payment', auth, ...)`; the
body carries `paymentIntentId`. -/
def confirmCardPayment (s : Store) (orderId : String) (paymentIntentId : Option String)
    (now : Nat) : Response × Store :=
  match findById s orderId with
  | none => (⟨404, "Order not found", none⟩, s)
  | some loaded =>
    if loaded.paymentMethod ≠ .card then
      (⟨400, "Invalid payment method. This endpoint is for card payments only.", none⟩, s)
    else
      let order := { loaded with
        paymentStatus := .paid
        status := .confirmed
        paymentDetails := some {
          paymentIntentId := paymentIntentId
          paidAt := some now
          method := some .card } }
      (⟨200, "Payment confirmed and status updated", some order⟩, save s (persisted loaded order))

/-- The handler `router.post('/:orderId/update-cash-payment', ...)`:
`findOneAndUpdate({ _id, paymentMethod: 'cash' }, { $set: ... }, { new: true })`.
The `paymentDetails` of the `$set` are no schema path: they are neither written
nor part of the document the update returns. -/
def updateCashPayment (s : Store) (orderId : String) (now : Nat) : Response × Store :=
  match s.find? (fun o => o._id == orderId && o.paymentMethod == .cash) with
  | none => (⟨404, "Order not found or not a cash payment", none⟩, s)
  | some loaded =>
    let updatedOrder := persisted loaded { loaded with
      paymentStatus := .paid
      paymentDetails := some {
        method := some .cash
        paidAt := some now
        status := some "paid"
        updatedAt := some now } }
    (⟨200, "Cash payment status updated successfully", some updatedOrder⟩,
      save s updatedOrder)

/-! ## Order service: delivery claim (`delivery.js`) -/

/-- The handler `router.post('/:orderId/accept', auth, ...)`. -/
def accept (s : Store) (user : User) (orderId : String) : Response × Store :=
  if user.role ≠ "delivery" then
    (⟨403, "Only delivery personnel can accept orders", none⟩, s)
  else
    match findById s orderId with
    | none => (⟨404, "Order not found", none⟩, s)
    | some order =>
      if order.status ≠ .ready then
        (⟨400, "Order is not ready for delivery", none⟩, s)
      else if order.deliveryPerson.isSome then
        (⟨400, "Order already assigned to a delivery person", none⟩, s)
      else
        let order := { order with deliveryPerson := some user._id, status := .picked_up }
        (⟨200, "", some order⟩, save s order)

/-- The message of the `TypeError` raised by `x.toString()` when `x` is
`undefined`; a handler whose code raises it answers from its `catch` branch. -/
def typeErrorMessage : String :=
  "Cannot read properties of undefined (reading \x27toString\x27)"

/-- The handler `router.post('/:orderId/delivered', auth, ...)`.  With no delivery
person assigned, `order.deliveryPerson.toString()` raises a `TypeError` and
the `catch` branch answers 500 with the error message. -/
def delivered (s : Store) (user : User) (orderId : String) : Response × Store :=
  if user.role ≠ "delivery" then
    (⟨403, "Only delivery personnel can mark orders as delivered", none⟩, s)
  else
    match findById s orderId with
    | none => (⟨404, "Order not found", none⟩, s)
    | some order =>
      match order.deliveryPerson with
      | none => (⟨500, typeErrorMessage, none⟩, s)
      | some deliveryPerson =>
        if deliveryPerson ≠ user._id then
          (⟨403, "Not authorized to mark this order as delivered", none⟩, s)
        else if order.status ≠ .picked_up then
          (⟨400, "Order must be picked up before marking as delivered", none⟩, s)
        else
          let order := { order with status := .delivered }
          (⟨200, "", some order⟩, save s order)

/-! ## Order service: cancel (`orders.js`, `PUT /:id/cancel`) -/

/-- The handler `router.put('/:id/cancel', auth, ...)`.  The order is loaded
without `populate`, so `order.restaurant` is an id: for a requester who did
not place the order the second operand `order.restaurant.owner.toString()` is
evaluated and raises a `TypeError`, which the `catch` branch answers with 400
and the error message.  For the user who placed the order the conjunction is
decided by its first operand. -/
def cancel (s : Store) (user : User) (id : String) : Response × Store :=
  match findById s id with
  | none => (⟨404, "Order not found", none⟩, s)
  | some order =>
    if order.user ≠ user._id then
      (⟨400, typeErrorMessage, none⟩, s)
    else if order.status ≠ .pending ∧ order.status ≠ .confirmed then
      (⟨400, "Order cannot be cancelled at this stage", none⟩, s)
    else
      let order := { order with status := .cancelled }
      (⟨200, "", some order⟩, save s order)

/-! ## Sequences of order-service requests -/

/-- A request to one of the order service's operations on stored orders. -/
inductive Op where
  | patchStatus (user : User) (id : String) (status : Status)
  | cancel (user : User) (id : String)
  | paymentSuccess (id : String) (ref : Option String) (amount : Option Int) (now : Nat)
  | paymentFailed (id : String) (ref : Option String) (err : Option String) (now : Nat)
  | updatePayment (id : String) (ref : Option String) (paidAt : Option Nat)
      (amount : Option Int) (now : Nat)
  | confirmCardPayment (id : String) (ref : Option String) (now : Nat)
  | updateCashPayment (id : String) (now : Nat)
  | accept (user : User) (id : String)
  | delivered (user : User) (id : String)
  deriving DecidableEq, Repr

/-- The collection after one request has been served. -/
def applyOp (s : Store) : Op → Store
  | .patchStatus user id status => (patchStatus s user id status).2
  | .cancel user id => (cancel s user id).2
  | .paymentSuccess id ref amount now => (paymentSuccess s id ref amount now).2
  | .paymentFailed id ref err now => (paymentFailed s id ref err now).2
  | .updatePayment id ref paidAt amount now => (updatePayment s id ref paidAt amount now).2
  | .confirmCardPayment id ref now => (confirmCardPayment s id ref now).2
  | .updateCashPayment id now => (updateCashPayment s id now).2
  | .accept user id => (accept s user id).2
  | .delivered user id => (delivered s user id).2

/-- The collection after a sequence of requests served one after the other. -/
def runOps (s : Store) (ops : List Op) : Store :=
  ops.foldl applyOp s

/-- Ids identify documents: two documents of the collection with the same `_id`
are the same document. -/
def uniqueIds (s : Store) : Prop :=
  ∀ x ∈ s, ∀ y ∈ s, x._id = y._id → x = y

/-- How a request may change the delivery person of a stored order: not at
all, or from unassigned while the status becomes `picked_up`. -/
def AssignmentKept (o o' : Order) : Prop :=
  o'.deliveryPerson = o.deliveryPerson ∨ (o.deliveryPerson = none ∧ o'.status = .picked_up)

/-! ## Concurrent claims

`accept` awaits two store operations, `Order.findById` and `order.save()`; the
guards run on the document loaded by the first.  Requests served concurrently
interleave at these two operations. -/

/-- How far one `accept` request has got. -/
inductive ClaimPhase where
  | waiting
  | loaded (order : Order)
  | answered (response : Response)
  deriving DecidableEq, Repr

/-- The next store operation of an `accept` request by `user`: from `waiting`,
the role guard, `findById` and the guards on the loaded document; from
`loaded`, the assignments and `save`. -/
def claimStep (orderId : String) (user : User) (s : Store) :
    ClaimPhase → ClaimPhase × Store
  | .waiting =>
    if user.role ≠ "delivery" then
      (.answered ⟨403, "Only delivery personnel can accept orders", none⟩, s)
    else
      match findById s orderId with
      | none => (.answered ⟨404, "Order not found", none⟩, s)
      | some order =>
        if order.status ≠ .ready then
          (.answered ⟨400, "Order is not ready for delivery", none⟩, s)
        else if order.deliveryPerson.isSome then
          (.answered ⟨400, "Order already assigned to a delivery person", none⟩, s)
        else (.loaded order, s)
  | .loaded order =>
    let order := { order with deliveryPerson := some user._id, status := .picked_up }
    (.answered ⟨200, "", some order⟩, save s order)
  | .answered response => (.answered response, s)

/-- The state of a set of concurrent `accept` requests for one order: the
collection and each request with its requester and its progress. -/
structure ClaimRun where
  store : Store
  requests : List (User × ClaimPhase)
  deriving DecidableEq, Repr

/-- Request number `i` performs its next store operation. -/
def ClaimRun.advance (orderId : String) (run : ClaimRun) (i : Nat) : ClaimRun :=
  match run.requests.get? i with
  | none => run
  | some (user, phase) =>
    let r := claimStep orderId user run.store phase
    { store := r.2, requests := run.requests.set i (user, r.1) }

/-- The run of the requests of `users` for `orderId` under a schedule: the
list of the request numbers in the order in which they perform their store
operations. -/
def runClaims (orderId : String) (s : Store) (users : List User) (schedule : List Nat) :
    ClaimRun :=
  schedule.foldl (ClaimRun.advance orderId) ⟨s, users.map (fun u => (u, .waiting))⟩

/-- The answers given so far, request by request. -/
def ClaimRun.answers (run : ClaimRun) : List (Option Response) :=
  run.requests.map (fun r => match r.2 with
    | .answered response => some response
    | _ => none)

/-! ## Payment service: the Stripe webhook (`server.js`, `models/Payment.js`)

`server.js` registers the routes of the payment service on the application
itself and does not mount the router of `routes/paymentRoutes.js`; the routes
of that router (`save-payment` among them) receive no request.  The webhook of
`server.js` is the one place of the running service where a `Payment` document
is saved. -/

/-- A document of the payments collection (`paymentSchema`). -/
structure Payment where
  paymentIntentId : Option String
  orderId : String
  userId : String
  amount : Int
  currency : String
  status : String
  paymentMethod : String
  createdAt : Nat
  deriving DecidableEq, Repr

/-- The payments collection. -/
abbrev Ledger := List Payment

/-- The payment intent carried by a Stripe event (`event.data.object`):
`orderId` and `userId` are those of its `metadata`, `amount` is the value of
`paymentIntent.amount / 100`. -/
structure PaymentIntent where
  id : String
  orderId : String
  userId : String
  amount : Int
  currency : String
  deriving DecidableEq, Repr

/-- A Stripe event as `stripe.webhooks.constructEvent` returns it. -/
structure StripeEvent where
  type : String
  paymentIntent : PaymentIntent
  deriving DecidableEq, Repr

/-- A `POST /api/orders/<orderId>/confirm-card-payment` request as the order
service serves it: the route runs `auth`, which answers 401 to a request
without a token (`requester = none`), and then the handler. -/
def confirmCardPaymentRequest (s : Store) (requester : Option User) (orderId : String)
    (paymentIntentId : Option String) (now : Nat) : Response × Store :=
  match requester with
  | none => (⟨401, "No token provided", none⟩, s)
  | some _ => confirmCardPayment s orderId paymentIntentId now

/-- What a webhook delivery leaves behind: the status code answered (`none`
when the handler sends no answer), the payments collection and the orders
collection. -/
structure WebhookResult where
  code : Option Nat
  ledger : Ledger
  orders : Store
  deriving DecidableEq, Repr

/-- The handler `app.post('/api/payments/webhook', ...)` of `server.js`.
`event` is absent when `constructEvent` throws (400).  For
`payment_intent.succeeded` the handler first posts to `confirm-card-payment`
with a `Content-Type` header only, so without a token; `axios` throws on an
answer outside 2xx, the error is thrown again and answered with 400.  Only
after a 2xx answer the `Payment` document is built and saved.  For another
event type the handler sends no answer. -/
def webhook (ledger : Ledger) (s : Store) (event : Option StripeEvent) (now : Nat) :
    WebhookResult :=
  match event with
  | none => ⟨some 400, ledger, s⟩
  | some event =>
    if event.type = "payment_intent.succeeded" then
      let orderResponse := confirmCardPaymentRequest s none event.paymentIntent.orderId
        (some event.paymentIntent.id) now
      if 200 ≤ orderResponse.1.code ∧ orderResponse.1.code < 300 then
        let payment : Payment :=
          { paymentIntentId := some event.paymentIntent.id
            orderId := event.paymentIntent.orderId
            userId := event.paymentIntent.userId
            amount := event.paymentIntent.amount
            currency := event.paymentIntent.currency
            status := "succeeded"
            paymentMethod := "card"
            createdAt := now }
        ⟨some 200, ledger ++ [payment], orderResponse.2⟩
      else ⟨some 400, ledger, orderResponse.2⟩
    else ⟨none, ledger, s⟩

/-- A sequence of webhook deliveries (each with the time it is served), handled
one after the other: the collections afterwards. -/
def runWebhooks (ledger : Ledger) (s : Store) :
    List (Option StripeEvent × Nat) → Ledger × Store
  | [] => (ledger, s)
  | (event, now) :: rest =>
    runWebhooks (webhook ledger s event now).ledger (webhook ledger s event now).orders rest

/-- The Payment documents of the ledger that carry the payment reference
`ref`. -/
def recordsOf (ledger : Ledger) (ref : String) : List Payment :=
  ledger.filter (fun p => p.paymentIntentId == some ref)

/-! ## Delivery service: delivery reports (`deliveryRoutes.js`, `models/Delivery.js`) -/

/-- An item line of a delivery report. -/
structure ReportItem where
  name : String
  quantity : Int
  price : Int
  deriving DecidableEq, Repr

/-- A document of the deliveries collection (`deliverySchema`). -/
structure Delivery where
  orderId : String
  deliveryPersonId : String
  personName : String
  personEmail : String
  personPhone : String
  personId : String
  deliveryTime : Nat
  deliveryNotes : String
  items : List ReportItem
  totalAmount : Int
  customerName : String
  customerEmail : String
  customerPhone : String
  restaurant : String
  deliveryAddress : String
  status : String
  deriving DecidableEq, Repr

/-- The body of a `POST /api/deliveries` request.  The paths the schema
requires may be missing; `deliveryPersonDetails` and `orderDetails` are given
by their leaves. -/
structure DeliveryRequest where
  orderId : Option String
  deliveryPersonId : Option String
  personName : Option String
  personEmail : Option String
  personPhone : Option String
  personId : Option String
  deliveryTime : Option Nat
  deliveryNotes : Option String
  items : List ReportItem
  totalAmount : Option Int
  customerName : String
  customerEmail : String
  customerPhone : String
  restaurant : String
  deliveryAddress : Option String
  deriving DecidableEq, Repr

/-- The deliveries collection. -/
abbrev Reports := List Delivery

/-- The document `new Delivery({ ... })` builds, when the required paths are
present (a required string or id is present when it is not empty; a missing
`deliveryTime` gives an invalid date). -/
def newDelivery (req : DeliveryRequest) : Option Delivery :=
  match req.orderId, req.deliveryPersonId, req.personName, req.personEmail, req.personPhone,
    req.personId, req.deliveryTime, req.totalAmount, req.deliveryAddress with
  | some orderId, some deliveryPersonId, some personName, some personEmail, some personPhone,
    some personId, some deliveryTime, some totalAmount, some deliveryAddress =>
    if orderId = "" ∨ deliveryPersonId = "" ∨ personName = "" ∨ personEmail = "" ∨
        personPhone = "" ∨ personId = "" ∨ deliveryAddress = "" then none
    else some
      { orderId := orderId
        deliveryPersonId := deliveryPersonId
        personName := personName
        personEmail := personEmail
        personPhone := personPhone
        personId := personId
        deliveryTime := deliveryTime
        deliveryNotes := match req.deliveryNotes with
          | some notes => notes
          | none => ""
        items := req.items
        totalAmount := totalAmount
        customerName := req.customerName
        customerEmail := req.customerEmail
        customerPhone := req.customerPhone
        restaurant := req.restaurant
        deliveryAddress := deliveryAddress
        status := "delivered" }
  | _, _, _, _, _, _, _, _, _ => none

/-- The handler `router.post('/', authMiddleware, ...)` of `deliveryRoutes.js`:
the status code of the answer and the collection afterwards.  A document that
fails validation is not saved and the `catch` branch answers 500. -/
def createDelivery (reports : Reports) (req : DeliveryRequest) : Nat × Reports :=
  match newDelivery req with
  | some delivery => (201, reports ++ [delivery])
  | none => (500, reports)

/-- A sequence of report-creation requests handled one after the other. -/
def createDeliveries (reports : Reports) : List DeliveryRequest → Reports
  | [] => reports
  | req :: rest => createDeliveries (createDelivery reports req).2 rest

/-- The reports of the collection that refer to the order `orderId`. -/
def reportsOf (reports : Reports) (orderId : String) : Reports :=
  reports.filter (fun d => d.orderId == orderId)

/-- The orders collection together with the deliveries collection of the
delivery service. -/
structure System where
  orders : Store
  reports : Reports
  deriving DecidableEq, Repr

/-- The order service's `delivered` request on the whole system: the handler
works on the `Order` model alone (`routes/delivery.js` requires no other
model and sends no request to the delivery service). -/
def markDelivered (sys : System) (user : User) (orderId : String) : Response × System :=
  let r := delivered sys.orders user orderId
  (r.1, { sys with orders := r.2 })

/-! ## Order service: order creation (`orders.js`, `POST /`) -/

/-- A menu item as the restaurant service returns it (`GET /api/menu/:id`). -/
structure MenuItem where
  _id : String
  name : String
  price : Int
  isAvailable : Bool
  deriving DecidableEq, Repr

/-- An element of `req.body.items`.  The client sends a `price` with each
element; the handler does not read it. -/
structure CreateItem where
  menuItem : String
  quantity : Nat
  price : Option Int
  specialInstructions : Option String
  deriving DecidableEq, Repr

/-- The body of an order-creation request.  The client sends a `totalAmount`;
the handler does not destructure it. -/
structure CreateRequest where
  restaurantId : Option String
  restaurant : Option String
  items : List CreateItem
  totalAmount : Option Int
  deliveryFee : Option Int
  deliveryAddress : Option String
  paymentMethod : Option String
  notes : Option String
  deriving DecidableEq, Repr

/-- The collaborators the handler calls: the restaurant service
(`GET /api/restaurants/:id`, giving `isOpen`, and `GET /api/menu/:id`) and the
payment service (`POST /api/payments/create-payment-intent` with the order id
and the amount, giving the `paymentIntentId`).  `none` is a call that fails; for
`menu` also a reply without data. -/
structure Services where
  restaurantIsOpen : String → Option Bool
  menu : String → Option MenuItem
  createIntent : String → Int → Option String

/-- What order creation leaves behind: the answer, the collection and the
payment-intent requests sent to the payment service (order id and amount). -/
structure CreateResult where
  response : Response
  store : Store
  intentRequests : List (String × Int)
  deriving DecidableEq, Repr

/-- The value of `restaurantId || restaurant` when it is truthy. -/
def restaurantIdentifier (req : CreateRequest) : Option String :=
  match req.restaurantId with
  | some r => if r = "" then req.restaurant.filter (fun x => x ≠ "") else some r
  | none => req.restaurant.filter (fun x => x ≠ "")

/-- The value of `deliveryFee || 0`. -/
def feeOrZero (deliveryFee : Option Int) : Int :=
  match deliveryFee with
  | some fee => fee
  | none => 0

/-- The order item the loop pushes for a request item and its menu item. -/
def orderItemOf (menuItem : MenuItem) (item : CreateItem) : OrderItem :=
  { menuItemId := menuItem._id
    name := menuItem.name
    quantity := item.quantity
    price := menuItem.price
    specialInstructions := match item.specialInstructions with
      | some text => text
      | none => "" }

/-- The loop `for (const item of items)` from a given `totalAmount` and
`orderItems`: the first item whose lookup fails ends the request with 500, the
first item that is not available ends it with 400. -/
def processItems (svc : Services) :
    List CreateItem → Int → List OrderItem → Except Response (Int × List OrderItem)
  | [], totalAmount, orderItems => .ok (totalAmount, orderItems)
  | item :: rest, totalAmount, orderItems =>
    match svc.menu item.menuItem with
    | none => .error ⟨500, "Error processing menu item", none⟩
    | some menuItem =>
      if menuItem._id = "" then .error ⟨500, "Error processing menu item", none⟩
      else if menuItem.isAvailable = false then
        .error ⟨400, "Item " ++ menuItem.name ++ " is not available", none⟩
      else
        processItems svc rest (totalAmount + menuItem.price * item.quantity)
          (orderItems ++ [orderItemOf menuItem item])

/-- The validators of `orderSchema` that a new order can fail. -/
def validNewOrder (order : Order) : Bool :=
  order.items.all (fun i => i.menuItemId ≠ "" && i.name ≠ "" && 1 ≤ i.quantity && 0 ≤ i.price)
    && 0 ≤ order.totalAmount && 0 ≤ order.deliveryFee && order.deliveryAddress ≠ ""
    && order.userDetails.name ≠ "" && order.userDetails.email ≠ ""

/-- The `paymentMethod` of the body as a value of the schema enum. -/
def parseMethod (paymentMethod : Option String) : Option PaymentMethod :=
  match paymentMethod with
  | some m => if m = "cash" then some .cash else if m = "card" then some .card else none
  | none => none

/-- The part of the handler `router.post('/', auth, ...)` after the item loop:
the delivery fee is added, the order is built and saved, and for a card order
the payment intent is requested; its id is assigned to `paymentDetails` and the
order saved again (which writes nothing, see `persisted`), its failure is saved
as `paymentStatus`.  The 201 answer carries the order as read back from the
collection.  A new document that fails validation is not saved and the `catch`
branch answers 500. -/
def placeOrder (svc : Services) (s : Store) (user : User) (details : UserDetails)
    (req : CreateRequest) (restaurantId : String) (subtotal : Int)
    (orderItems : List OrderItem) (newId : String) (now : Nat) : CreateResult :=
  let totalAmount := subtotal + feeOrZero req.deliveryFee
  match parseMethod req.paymentMethod, req.deliveryAddress with
  | some paymentMethod, some deliveryAddress =>
    let order : Order :=
      { _id := newId
        user := user._id
        restaurant := restaurantId
        items := orderItems
        totalAmount := totalAmount
        deliveryFee := feeOrZero req.deliveryFee
        deliveryAddress := deliveryAddress
        status := .pending
        paymentStatus := .pending
        paymentMethod := paymentMethod
        deliveryPerson := none
        notes := match req.notes with
          | some notes => notes
          | none => ""
        paymentDetails := none
        userDetails := details }
    if validNewOrder order = false then
      ⟨⟨500, "Error creating order", none⟩, s, []⟩
    else if paymentMethod = .card then
      match svc.createIntent newId totalAmount with
      | some paymentIntentId =>
        let withIntent := { order with
          paymentDetails := some {
            paymentIntentId := some paymentIntentId
            createdAt := some now } }
        ⟨⟨201, "", some order⟩, save (s ++ [order]) (persisted order withIntent),
          [(newId, totalAmount)]⟩
      | none =>
        let failed := { order with paymentStatus := .failed }
        ⟨⟨400, "Payment initialization failed", none⟩, save (s ++ [order]) failed,
          [(newId, totalAmount)]⟩
    else ⟨⟨201, "", some order⟩, s ++ [order], []⟩
  | _, _ => ⟨⟨500, "Error creating order", none⟩, s, []⟩

/-- The handler `router.post('/', auth, ...)`: the guards on the requester, the
restaurant and the items, the item loop, and then `placeOrder`.  `details` are
the name, email, phone and address of `req.user`, `newId` is the `_id` given
to the new document. -/
def createOrder (svc : Services) (s : Store) (user : User) (details : UserDetails)
    (req : CreateRequest) (newId : String) (now : Nat) : CreateResult :=
  if user._id = "" then ⟨⟨401, "Invalid user data", none⟩, s, []⟩
  else
    match restaurantIdentifier req with
    | none => ⟨⟨400, "Restaurant ID is required", none⟩, s, []⟩
    | some restaurantId =>
      if req.items.isEmpty then ⟨⟨400, "At least one item is required", none⟩, s, []⟩
      else
        match svc.restaurantIsOpen restaurantId with
        | none => ⟨⟨500, "Error verifying restaurant", none⟩, s, []⟩
        | some false => ⟨⟨400, "Restaurant is currently closed", none⟩, s, []⟩
        | some true =>
          match processItems svc req.items 0 [] with
          | .error response => ⟨response, s, []⟩
          | .ok (subtotal, orderItems) =>
            placeOrder svc s user details req restaurantId subtotal orderItems newId now

/-! ## Delivery service: generic update (`orderRoutes.js`, `PATCH /:orderId`) -/

/-- The body of a `PATCH /:orderId` request, by the schema paths it may carry;
a path the body does not carry is `none`. -/
structure OrderUpdates where
  status : Option Status := none
  paymentStatus : Option PaymentStatus := none
  items : Option (List OrderItem) := none
  totalAmount : Option Int := none
  user : Option String := none
  restaurant : Option String := none
  paymentMethod : Option PaymentMethod := none
  deliveryAddress : Option String := none
  deriving DecidableEq, Repr

/-- The document after the paths of the body have been written. -/
def applyUpdates (order : Order) (updates : OrderUpdates) : Order :=
  { order with
    status := updates.status.getD order.status
    paymentStatus := updates.paymentStatus.getD order.paymentStatus
    items := updates.items.getD order.items
    totalAmount := updates.totalAmount.getD order.totalAmount
    user := updates.user.getD order.user
    restaurant := updates.restaurant.getD order.restaurant
    paymentMethod := updates.paymentMethod.getD order.paymentMethod
    deliveryAddress := updates.deliveryAddress.getD order.deliveryAddress }

/-- The handler `router.patch('/:orderId', authMiddleware, ...)`:
`Order.findByIdAndUpdate(orderId, req.body, { new: true })`. -/
def patchOrder (s : Store) (orderId : String) (updates : OrderUpdates) : Response × Store :=
  match findById s orderId with
  | none => (⟨404, "Order not found", none⟩, s)
  | some order => (⟨200, "", some (applyUpdates order updates)⟩, save s (applyUpdates order updates))

/-- The fields of an order that are fixed at creation: items, totalAmount,
user, restaurant and paymentMethod. -/
def frame (o : Order) : List OrderItem × Int × String × String × PaymentMethod :=
  (o.items, o.totalAmount, o.user, o.restaurant, o.paymentMethod)

/-! ## Order service: the two `PATCH .../status` routes of the orders router -/

/-- The handler of the second route, `router.patch('/:orderId/status', ...)`
(`orders.js`, registered after `router.patch('/:id/status', auth, ...)`): it
sets the status and, for a cash order set to `delivered`, marks the order
paid.  The answer carries the document by its schema paths. -/
def patchStatusSettlingCash (s : Store) (orderId : String) (status : Status) (now : Nat) :
    Response × Store :=
  match findById s orderId with
  | none => (⟨404, "Order not found", none⟩, s)
  | some loaded =>
    let order := { loaded with status := status }
    let order :=
      if status = .delivered ∧ order.paymentMethod = .cash then
        { order with
          paymentStatus := .paid
          paymentDetails := some {
            method := some .cash
            paidAt := some now
            status := some "paid" } }
      else order
    (⟨200, "Order updated successfully", some (persisted loaded order)⟩,
      save s (persisted loaded order))

/-- A route of a router for a request whose path and method it matches: it
answers, or passes the request on (`next()`). -/
abbrev Route := Store → Option (Response × Store)

/-- Express hands a request to the matching routes in the order of their
registration, until one answers. -/
def dispatch (s : Store) : List Route → Response × Store
  | [] => (⟨404, "", none⟩, s)
  | route :: rest =>
    match route s with
    | some answer => answer
    | none => dispatch s rest

/-- A `PATCH /api/orders/<id>/status` request served by the orders router.  Both
patterns `/:id/status` and `/:orderId/status` match the path.  The first route
runs `auth`, which answers 401 without a valid token (`requester = none`), and
then its handler, which always answers; neither calls `next()`. -/
def ordersRouterPatchStatus (s : Store) (requester : Option User) (id : String)
    (status : Status) (now : Nat) : Response × Store :=
  dispatch s
    [ fun s => some (match requester with
        | none => (⟨401, "No token provided", none⟩, s)
        | some user => patchStatus s user id status),
      fun s => some (patchStatusSettlingCash s id status now) ]

/-! ## Notification service: the order watcher (`orderWatcher.js`) -/

/-- The fields of an order document the watcher reads. -/
structure WatchedOrder where
  _id : String
  status : String
  phone : Option String
  deriving DecidableEq, Repr

/-- A change event of the orders collection that passes the `$match` stage: an
update that writes `status`.  `fullDocument` is the document looked up for the
event (`fullDocument: 'updateLookup'`), absent when it is no longer there. -/
structure ChangeEvent where
  documentKey : String
  updatedStatus : String
  fullDocument : Option WatchedOrder
  deriving DecidableEq, Repr

/-- A text message handed to the messaging gateway. -/
structure Sms where
  recipient : String
  body : String
  deriving DecidableEq, Repr

/-- The `switch (order.status)` of the change handler. -/
def statusMessage (orderId status : String) : String :=
  if status = "preparing" then
    "Your order #" ++ orderId ++ " is now being prepared in the kitchen!"
  else if status = "ready" then "Your order #" ++ orderId ++ " is ready for pickup!"
  else if status = "out_for_delivery" then "Your order #" ++ orderId ++ " is on its way to you!"
  else if status = "delivered" then
    "Your order #" ++ orderId ++ " has been delivered. Enjoy your meal!"
  else if status = "cancelled" then "Your order #" ++ orderId ++ " has been cancelled."
  else "Your order #" ++ orderId ++ " status has been updated to: " ++ status

/-- The value of `to.startsWith('+') ? to : '+' + to` for the number
`recipient` passed as `to`. -/
def formatPhone (recipient : String) : String :=
  if recipient.data.head? = some '+' then recipient else "+" ++ recipient

/-- `NotificationService.sendSMS`.  `gatewayError` is what
`client.messages.create` does with the message: `none` when it accepts it, the
error it raises otherwise; the `catch` branch logs the error and raises it
again. -/
def sendSMS (gatewayError : Option String) (recipient message : String) :
    Except String Sms :=
  match gatewayError with
  | none => .ok ⟨formatPhone recipient, message⟩
  | some error => .error error

/-- What the watcher has around it: the orders collection it is connected to,
the messages the gateway has accepted and the errors it has logged. -/
structure WatcherState where
  orders : Store
  sent : List Sms
  errors : List String
  deriving DecidableEq, Repr

/-- The notification the change handler computes for an event: none without a
document or without a (non-empty) phone. -/
def notificationOf (event : ChangeEvent) : Option (String × String) :=
  match event.fullDocument with
  | none => none
  | some order =>
    match order.phone with
    | none => none
    | some phone =>
      if phone = "" then none else some (phone, statusMessage order._id order.status)

/-- The `try` block of the change handler. -/
def changeBody (gatewayError : Option String) (st : WatcherState) (event : ChangeEvent) :
    Except String WatcherState :=
  match notificationOf event with
  | none => .ok st
  | some (phone, message) =>
    match sendSMS gatewayError phone message with
    | .ok sms => .ok { st with sent := st.sent ++ [sms] }
    | .error error => .error error

/-- The change handler `changeStream.on('change', ...)`: the `try` block, and
the `catch` branch that logs the error. -/
def onChange (gatewayError : Option String) (st : WatcherState) (event : ChangeEvent) :
    Except String WatcherState :=
  match changeBody gatewayError st event with
  | .ok st' => .ok st'
  | .error error => .ok { st with errors := st.errors ++ [error] }

/-- The watcher on a sequence of events, each with what the gateway does with
its message; an error that left the handler would end the run. -/
def watch (st : WatcherState) : List (ChangeEvent × Option String) → Except String WatcherState
  | [] => .ok st
  | (event, gatewayError) :: rest =>
    match onChange gatewayError st event with
    | .ok st' => watch st' rest
    | .error error => .error error

/-- The message the gateway accepts for an event, if any. -/
def deliveredOf (e : ChangeEvent × Option String) : Option Sms :=
  match e.2, notificationOf e.1 with
  | none, some (phone, message) => some ⟨formatPhone phone, message⟩
  | _, _ => none

/-! ## Restaurant UI: the next status offered (`RestaurantOrders.js`) -/

/-- The value of `currentStatus.toLowerCase().replace(/ /g, '_')`; lower case
is taken on the letters A to Z. -/
def normaliseStatus (currentStatus : String) : String :=
  ⟨(currentStatus.data.map Char.toLower).map (fun c => if c = ' ' then '_' else c)⟩

/-- What `getNextStatus` returns: `null`, a status, or the object found under a
property name that every object inherits. -/
inductive NextStatus where
  | null
  | status (value : String)
  | inherited (name : String)
  deriving DecidableEq, Repr

/-- The function `getNextStatus`: `statusFlow[normalizedStatus] || null`, where
`statusFlow` is an object literal with the keys `pending`, `confirmed` and
`preparing`.  Besides its own keys, the lookup finds the properties inherited
from `Object.prototype`; the names among them that a normalised status can
spell are `constructor` and `__proto__`, and their values are objects. -/
def getNextStatus (currentStatus : String) : NextStatus :=
  let normalizedStatus := normaliseStatus currentStatus
  if normalizedStatus = "pending" then .status "confirmed"
  else if normalizedStatus = "confirmed" then .status "preparing"
  else if normalizedStatus = "preparing" then .status "ready"
  else if normalizedStatus = "constructor" ∨ normalizedStatus = "__proto__" then
    .inherited normalizedStatus
  else .null

/-- The function `canUpdateStatus`. -/
def canUpdateStatus (currentStatus : String) : Bool :=
  ["pending", "confirmed", "preparing"].contains (normaliseStatus currentStatus)

/-- The status a status string of the schema names. -/
def parseStatus (s : String) : Option Status :=
  if s = "pending" then some .pending
  else if s = "confirmed" then some .confirmed
  else if s = "preparing" then some .preparing
  else if s = "ready" then some .ready
  else if s = "picked_up" then some .picked_up
  else if s = "delivered" then some .delivered
  else if s = "cancelled" then some .cancelled
  else none

/-! ## Order creation: what the client supplies beyond the order itself -/

/-- A creation request without the prices and the total the client supplies. -/
def stripClient (req : CreateRequest) : CreateRequest :=
  { req with
    totalAmount := none
    items := req.items.map (fun item => { item with price := none }) }

/-- The transition graph of the specification (§4.1), used to say which
requests the handlers accept although the graph has no such edge. -/
def specEdge : Status → Status → Bool
  | .pending, .confirmed | .pending, .cancelled => true
  | .confirmed, .preparing | .confirmed, .cancelled => true
  | .preparing, .ready | .preparing, .cancelled => true
  | .ready, .picked_up => true
  | .picked_up, .delivered => true
  | _, _ => false

/-- The fields of an order that payment reconciliation is compared on: the
status, the payment status and the stored payment reference. -/
def reconciliationKey (o : Order) : Status × PaymentStatus × Option String :=
  (o.status, o.paymentStatus, paymentReference o)

/-! ## Sample data -/

/-- An order as `POST /` stores it (total 1050 = 2 × 500 + fee 50), put in the
given status, payment status and method, with the given payment details. -/
def sampleOrder (status : Status) (paymentStatus : PaymentStatus)
    (paymentMethod : PaymentMethod) (paymentDetails : Option PaymentDetails) : Order :=
  { _id := "o1"
    user := "u1"
    restaurant := "r1"
    items := [⟨"m1", "Rice and curry", 2, 500, ""⟩]
    totalAmount := 1050
    deliveryFee := 50
    deliveryAddress := "12 Lake Road"
    status := status
    paymentStatus := paymentStatus
    paymentMethod := paymentMethod
    deliveryPerson := none
    notes := ""
    paymentDetails := paymentDetails
    userDetails := ⟨"Nimal", "nimal@example.com", "0771234567", "12 Lake Road"⟩ }

/-- The owner of restaurant `r1`. -/
def restaurantUser : User := ⟨"u9", "restaurant", some "r1"⟩

/-- A delivery agent. -/
def deliveryUser : User := ⟨"d1", "delivery", none⟩

/-- The event Stripe sends when the payment intent `pi_1` of order `o1` has
succeeded. -/
def succeededEvent : StripeEvent :=
  ⟨"payment_intent.succeeded", ⟨"pi_1", "o1", "u1", 1050, "lkr"⟩⟩

/-- Payment details carrying the payment intent `pi_1`, as a document of the
collection may have been inserted with; the handlers of the order service do
not write them. -/
def intentDetails : PaymentDetails := { paymentIntentId := some "pi_1", createdAt := some 1 }

/-- The sample order after agent `d1` has claimed it. -/
def claimedOrder (paymentStatus : PaymentStatus) (paymentMethod : PaymentMethod) : Order :=
  { sampleOrder .picked_up paymentStatus paymentMethod none with deliveryPerson := some "d1" }

/-- A second delivery agent. -/
def otherDeliveryUser : User := ⟨"d2", "delivery", none⟩

/-- The customer who placed the sample order. -/
def customerUser : User := ⟨"u1", "customer", none⟩

/-- The delivery report of order `o1` as the delivery dashboard sends it. -/
def sampleReport : DeliveryRequest :=
  { orderId := some "o1"
    deliveryPersonId := some "d1"
    personName := some "Kamal"
    personEmail := some "kamal@example.com"
    personPhone := some "0719876543"
    personId := some "d1"
    deliveryTime := some 100
    deliveryNotes := none
    items := [⟨"Rice and curry", 2, 500⟩]
    totalAmount := some 1050
    customerName := "Nimal"
    customerEmail := "nimal@example.com"
    customerPhone := "0771234567"
    restaurant := "r1"
    deliveryAddress := some "12 Lake Road" }

/-- The catalogue: `m1` costs 500 and is available, `m2` costs 300 and is not
available; restaurant `r1` is open; the payment service creates `pi_1`. -/
def sampleServices : Services :=
  { restaurantIsOpen := fun r => if r = "r1" then some true else none
    menu := fun m =>
      if m = "m1" then some ⟨"m1", "Rice and curry", 500, true⟩
      else if m = "m2" then some ⟨"m2", "Kottu", 300, false⟩
      else none
    createIntent := fun _ _ => some "pi_1" }

/-- A creation request for two portions of `m1` with delivery fee 50, paid in
the given way, with the given client-supplied item price and total. -/
def sampleCreate (paymentMethod : String) (price totalAmount : Option Int) : CreateRequest :=
  { restaurantId := some "r1"
    restaurant := none
    items := [⟨"m1", 2, price, none⟩]
    totalAmount := totalAmount
    deliveryFee := some 50
    deliveryAddress := some "12 Lake Road"
    paymentMethod := some paymentMethod
    notes := none }

/-- The profile of the customer `u1`. -/
def customerDetails : UserDetails :=
  ⟨"Nimal", "nimal@example.com", "0771234567", "12 Lake Road"⟩

/-- The change event of order `o1` becoming `ready`, for a customer with a
phone. -/
def readyEvent : ChangeEvent :=
  ⟨"o1", "ready", some ⟨"o1", "ready", some "94771234567"⟩⟩

/-- The change event of the update of order `o1` to `ready` when the order has
been marked delivered before the document is looked up for the event. -/
def overtakenReadyEvent : ChangeEvent :=
  ⟨"o1", "ready", some ⟨"o1", "delivered", some "94771234567"⟩⟩

/-- A watcher connected to the collection holding the ready sample order, with
nothing sent or logged yet. -/
def freshWatcher : WatcherState :=
  ⟨[sampleOrder .ready .pending .cash none], [], []⟩

/-! ## Lemmas on the store -/

theorem findById_id {s : Store} {id : String} {o : Order}
    (h : findById s id = some o) : o._id = id := by
  have := List.find?_some h
  simpa using this

theorem id_of_found {s : Store} {id : String} {o : Order}
    (h : findById s id = some o) : ∀ {o' : Order}, o'._id = o._id → o'._id = id :=
  fun e => e.trans (findById_id h)

theorem findOne_id {s : Store} {id : String} {r : Option String} {o : Order}
    (h : findOne s id r = some o) : o._id = id := by
  have := List.find?_some h
  simp only [Bool.and_eq_true, beq_iff_eq] at this
  exact this.1

theorem findById_save (s : Store) (o : Order) (j : String) :
    findById (save s o) j =
      if j = o._id then (findById s j).map (fun _ => o) else findById s j := by
  induction s with
  | nil => simp [findById, save]
  | cons x xs ih =>
    simp only [findById, save] at ih ⊢
    rw [List.map_cons, List.find?_cons, List.find?_cons, ih]
    by_cases hx : x._id = o._id
    · by_cases hj : j = o._id
      · subst hj; simp [hx]
      · have h1 : (o._id == j) = false := by
          simpa using fun h => hj h.symm
        have h2 : (x._id == j) = false := by
          simpa using fun h => hj (by rw [← h, hx])
        simp only [hx, beq_self_eq_true, if_true, h1, h2, hj, if_false]
    · have h0 : (x._id == o._id) = false := by simpa using hx
      by_cases hxj : x._id = j
      · have hj : ¬ j = o._id := fun h => hx (by rw [hxj, h])
        simp [h0, hxj, hj]
      · have h2 : (x._id == j) = false := by simpa using hxj
        simp only [h0, Bool.false_eq_true, if_false]
        rw [h2]

theorem findOne_findById {s : Store} {id : String} {r : Option String} {o : Order}
    (h : findOne s id r = some o) : (findById s id).isSome = true := by
  have hm := List.mem_of_find?_eq_some h
  have hid := findOne_id h
  simp only [findById, List.find?_isSome]
  exact ⟨o, hm, by simp [hid]⟩

/-- Looking an order up after a document found under `id` was saved with a
new content `o'` (same `_id`). -/
theorem findById_save_same {s : Store} {id : String} {o' : Order}
    (h : (findById s id).isSome = true) (hid : o'._id = id) :
    findById (save s o') id = some o' := by
  rw [findById_save, if_pos hid.symm]
  cases hf : findById s id with
  | none => rw [hf] at h; simp at h
  | some x => rfl

theorem findById_save_other {s : Store} {j : String} {o' : Order}
    (h : j ≠ o'._id) : findById (save s o') j = findById s j := by
  rw [findById_save, if_neg h]

theorem find_filter_of_findById {s : Store} {id : String} {o : Order} (p : Order → Bool)
    (h : findById s id = some o) (hp : p o = true) :
    s.find? (fun x => x._id == id && p x) = some o := by
  induction s with
  | nil => simp [findById] at h
  | cons x xs ih =>
    simp only [findById, List.find?_cons] at h ih ⊢
    cases hx : (x._id == id) with
    | true =>
      rw [hx] at h
      simp only [Option.some.injEq] at h
      subst h
      simp [hp]
    | false =>
      rw [hx] at h
      simp only [Bool.false_and]
      exact ih h

theorem findOne_of_findById {s : Store} {id : String} {r : Option String} {o : Order}
    (h : findById s id = some o) (hr : some o.restaurant = r) :
    findOne s id r = some o :=
  find_filter_of_findById (fun x => some x.restaurant == r) h (by simp [hr])

/-! ## Lemmas on the handlers: what is stored for an order that exists -/

theorem paymentSuccess_found {s : Store} {id : String} {o : Order}
    (ref : Option String) (amount : Option Int) (now : Nat)
    (h : findById s id = some o) :
    (paymentSuccess s id ref amount now).1.code = 200 ∧
    findById (paymentSuccess s id ref amount now).2 id = some { o with
      paymentStatus := .paid
      status := .confirmed } := by
  simp only [paymentSuccess, h]
  exact ⟨trivial, findById_save_same (by rw [h]; rfl) (id_of_found h rfl)⟩

theorem paymentFailed_found {s : Store} {id : String} {o : Order}
    (ref : Option String) (err : Option String) (now : Nat)
    (h : findById s id = some o) :
    (paymentFailed s id ref err now).1.code = 200 ∧
    findById (paymentFailed s id ref err now).2 id = some { o with
      paymentStatus := .failed
      status := .cancelled } := by
  simp only [paymentFailed, h]
  exact ⟨trivial, findById_save_same (by rw [h]; rfl) (id_of_found h rfl)⟩

theorem updatePayment_found {s : Store} {id : String} {o : Order}
    (ref : Option String) (paidAt : Option Nat) (amount : Option Int) (now : Nat)
    (h : findById s id = some o) :
    (updatePayment s id ref paidAt amount now).1.code = 200 ∧
    findById (updatePayment s id ref paidAt amount now).2 id = some { o with
      paymentStatus := .paid } := by
  simp only [updatePayment, h]
  exact ⟨trivial, findById_save_same (by rw [h]; rfl) (id_of_found h rfl)⟩

theorem confirmCardPayment_card {s : Store} {id : String} {o : Order}
    (ref : Option String) (now : Nat)
    (h : findById s id = some o) (hc : o.paymentMethod = .card) :
    (confirmCardPayment s id ref now).1.code = 200 ∧
    findById (confirmCardPayment s id ref now).2 id = some { o with
      paymentStatus := .paid
      status := .confirmed } := by
  simp only [confirmCardPayment, h, hc, ne_eq, not_true_eq_false, if_false]
  exact ⟨trivial, findById_save_same (by rw [h]; rfl) (id_of_found h rfl)⟩

theorem confirmCardPayment_cash {s : Store} {id : String} {o : Order}
    (ref : Option String) (now : Nat)
    (h : findById s id = some o) (hc : o.paymentMethod = .cash) :
    confirmCardPayment s id ref now =
      (⟨400, "Invalid payment method. This endpoint is for card payments only.", none⟩, s) := by
  simp [confirmCardPayment, h, hc]

theorem updateCashPayment_cash {s : Store} {id : String} {o : Order} (now : Nat)
    (h : findById s id = some o) (hc : o.paymentMethod = .cash) :
    (updateCashPayment s id now).1.code = 200 ∧
    findById (updateCashPayment s id now).2 id = some { o with
      paymentStatus := .paid } := by
  have hf := find_filter_of_findById (fun x => x.paymentMethod == .cash) h (by simp [hc])
  simp only [updateCashPayment, hf]
  exact ⟨trivial, findById_save_same (by rw [h]; rfl) (id_of_found h rfl)⟩

theorem patchStatus_found {s : Store} {id : String} {o : Order} (user : User)
    (target : Status) (h : findById s id = some o) (hr : some o.restaurant = user.restaurant) :
    findById (patchStatus s user id target).2 id = some { o with status := target } := by
  simp only [patchStatus, findOne_of_findById h hr]
  exact findById_save_same (by rw [h]; rfl) (id_of_found h rfl)

theorem paymentSuccess_other {s : Store} {id j : String} (ref : Option String)
    (amount : Option Int) (now : Nat) (hj : j ≠ id) :
    findById (paymentSuccess s id ref amount now).2 j = findById s j := by
  unfold paymentSuccess
  cases h : findById s id with
  | none => rfl
  | some o => exact findById_save_other (fun e => hj (e.trans (id_of_found h rfl)))

theorem updatePayment_other {s : Store} {id j : String} (ref : Option String)
    (paidAt : Option Nat) (amount : Option Int) (now : Nat) (hj : j ≠ id) :
    findById (updatePayment s id ref paidAt amount now).2 j = findById s j := by
  unfold updatePayment
  cases h : findById s id with
  | none => rfl
  | some o => exact findById_save_other (fun e => hj (e.trans (id_of_found h rfl)))

theorem paymentSuccess_missing {s : Store} {id : String} (ref : Option String)
    (amount : Option Int) (now : Nat) (h : findById s id = none) :
    paymentSuccess s id ref amount now = (⟨404, "Order not found", none⟩, s) := by
  simp only [paymentSuccess, h]

theorem updatePayment_missing {s : Store} {id : String} (ref : Option String)
    (paidAt : Option Nat) (amount : Option Int) (now : Nat) (h : findById s id = none) :
    updatePayment s id ref paidAt amount now = (⟨404, "Order not found", none⟩, s) := by
  simp only [updatePayment, h]

theorem webhook_keeps_collections (ledger : Ledger) (s : Store) (event : Option StripeEvent)
    (now : Nat) :
    (webhook ledger s event now).ledger = ledger ∧ (webhook ledger s event now).orders = s := by
  unfold webhook
  cases event with
  | none => exact ⟨rfl, rfl⟩
  | some e =>
    simp only [confirmCardPaymentRequest]
    split
    · rw [if_neg (by decide)]
      exact ⟨rfl, rfl⟩
    · exact ⟨rfl, rfl⟩

theorem runWebhooks_keeps_collections (events : List (Option StripeEvent × Nat)) :
    ∀ (ledger : Ledger) (s : Store), runWebhooks ledger s events = (ledger, s) := by
  induction events with
  | nil => intro ledger s; rfl
  | cons e rest ih =>
    intro ledger s
    obtain ⟨event, now⟩ := e
    simp only [runWebhooks]
    rw [(webhook_keeps_collections ledger s event now).1,
      (webhook_keeps_collections ledger s event now).2]
    exact ih ledger s

theorem accept_found {s : Store} {id : String} {o : Order} (user : User)
    (hrole : user.role = "delivery") (h : findById s id = some o)
    (hready : o.status = .ready) (hfree : o.deliveryPerson = none) :
    accept s user id =
      (⟨200, "", some { o with deliveryPerson := some user._id, status := .picked_up }⟩,
        save s { o with deliveryPerson := some user._id, status := .picked_up }) := by
  simp [accept, hrole, h, hready, hfree]

theorem delivered_found {s : Store} {id : String} {o : Order} (user : User)
    (hrole : user.role = "delivery") (h : findById s id = some o)
    (hp : o.deliveryPerson = some user._id) (hst : o.status = .picked_up) :
    delivered s user id =
      (⟨200, "", some { o with status := .delivered }⟩, save s { o with status := .delivered }) := by
  simp [delivered, hrole, h, hp, hst]

/-- The two store operations of one `accept` request, performed one right after
the other, are the handler `accept`. -/
theorem claimStep_twice (orderId : String) (user : User) (s : Store) :
    claimStep orderId user (claimStep orderId user s .waiting).2
        (claimStep orderId user s .waiting).1
      = (.answered (accept s user orderId).1, (accept s user orderId).2) := by
  unfold accept
  by_cases hrole : user.role = "delivery"
  · cases h : findById s orderId with
    | none => simp [claimStep, hrole, h]
    | some o =>
      by_cases hst : o.status = .ready
      · cases hp : o.deliveryPerson with
        | none => simp [claimStep, hrole, h, hst, hp]
        | some p => simp [claimStep, hrole, h, hst, hp]
      · simp [claimStep, hrole, h, hst]
  · simp [claimStep, hrole]

/-! ## Lemmas on sequences of requests -/

theorem findById_of_filter {s : Store} {id : String} {o : Order} (hu : uniqueIds s)
    (p : Order → Bool) (h : s.find? (fun x => x._id == id && p x) = some o) :
    findById s id = some o := by
  have hm := List.mem_of_find?_eq_some h
  have hid : o._id = id := by
    have := List.find?_some h
    simp only [Bool.and_eq_true, beq_iff_eq] at this
    exact this.1
  cases hf : findById s id with
  | none =>
    have := List.find?_eq_none.mp hf o hm
    simp [hid] at this
  | some o2 =>
    have hm2 := List.mem_of_find?_eq_some hf
    have hid2 := findById_id hf
    rw [hu o2 hm2 o hm (hid2.trans hid.symm)]

theorem uniqueIds_save {s : Store} (hu : uniqueIds s) (o1 : Order) :
    uniqueIds (save s o1) := by
  intro x hx y hy e
  simp only [save, List.mem_map] at hx hy
  obtain ⟨x0, hx0, rfl⟩ := hx
  obtain ⟨y0, hy0, rfl⟩ := hy
  by_cases h1 : x0._id = o1._id <;> by_cases h2 : y0._id = o1._id <;>
    simp only [h1, h2, beq_self_eq_true, if_true, beq_iff_eq, if_false] at e ⊢
  · exact absurd e.symm h2
  · exact hu x0 hx0 y0 hy0 e

theorem assignmentKept_refl (o : Order) : AssignmentKept o o := Or.inl rfl

theorem save_lookup {s : Store} {id0 : String} {o0 o1 : Order}
    (h0 : findById s id0 = some o0) (hid : o1._id = o0._id) (hk : AssignmentKept o0 o1)
    (j : String) (o : Order) (h : findById s j = some o) :
    ∃ o', findById (save s o1) j = some o' ∧ AssignmentKept o o' := by
  rw [findById_save]
  by_cases hj : j = o1._id
  · have hj0 : j = id0 := by rw [hj, hid]; exact findById_id h0
    subst hj0
    rw [h0] at h
    simp only [Option.some.injEq] at h
    subst h
    rw [if_pos hj, h0]
    exact ⟨o1, rfl, hk⟩
  · rw [if_neg hj]
    exact ⟨o, h, assignmentKept_refl o⟩

/-- Every request leaves the collection as it was or saves one loaded document
whose delivery person is kept (or newly set together with `picked_up`). -/
theorem applyOp_cases {s : Store} (hu : uniqueIds s) (op : Op) :
    applyOp s op = s ∨
    ∃ id0 o0 o1, findById s id0 = some o0 ∧ o1._id = o0._id ∧ AssignmentKept o0 o1 ∧
      applyOp s op = save s o1 := by
  cases op with
  | patchStatus user id status =>
    simp only [applyOp, patchStatus]
    cases h : findOne s id user.restaurant with
    | none => exact Or.inl rfl
    | some o =>
      refine Or.inr ⟨id, o, _, findById_of_filter hu _ h, ?_, ?_, rfl⟩ <;>
        first | rfl | exact Or.inl rfl
  | cancel user id =>
    simp only [applyOp, cancel]
    cases h : findById s id with
    | none => exact Or.inl rfl
    | some o =>
      simp only []
      split
      · exact Or.inl rfl
      · split
        · exact Or.inl rfl
        · refine Or.inr ⟨id, o, _, h, ?_, ?_, rfl⟩ <;> first | rfl | exact Or.inl rfl
  | paymentSuccess id ref amount now =>
    simp only [applyOp, paymentSuccess]
    cases h : findById s id with
    | none => exact Or.inl rfl
    | some o => refine Or.inr ⟨id, o, _, h, ?_, ?_, rfl⟩ <;> first | rfl | exact Or.inl rfl
  | paymentFailed id ref err now =>
    simp only [applyOp, paymentFailed]
    cases h : findById s id with
    | none => exact Or.inl rfl
    | some o => refine Or.inr ⟨id, o, _, h, ?_, ?_, rfl⟩ <;> first | rfl | exact Or.inl rfl
  | updatePayment id ref paidAt amount now =>
    simp only [applyOp, updatePayment]
    cases h : findById s id with
    | none => exact Or.inl rfl
    | some o => refine Or.inr ⟨id, o, _, h, ?_, ?_, rfl⟩ <;> first | rfl | exact Or.inl rfl
  | confirmCardPayment id ref now =>
    simp only [applyOp, confirmCardPayment]
    cases h : findById s id with
    | none => exact Or.inl rfl
    | some o =>
      simp only []
      split
      · exact Or.inl rfl
      · refine Or.inr ⟨id, o, _, h, ?_, ?_, rfl⟩ <;> first | rfl | exact Or.inl rfl
  | updateCashPayment id now =>
    simp only [applyOp, updateCashPayment]
    cases h : s.find? (fun o => o._id == id && o.paymentMethod == .cash) with
    | none => exact Or.inl rfl
    | some o =>
      refine Or.inr ⟨id, o, _, findById_of_filter hu _ h, ?_, ?_, rfl⟩ <;>
        first | rfl | exact Or.inl rfl
  | accept user id =>
    simp only [applyOp, accept]
    split
    · exact Or.inl rfl
    · cases h : findById s id with
      | none => exact Or.inl rfl
      | some o =>
        simp only []
        split
        · exact Or.inl rfl
        · split
          · exact Or.inl rfl
          · rename_i hp
            have hnone : o.deliveryPerson = none := by
              cases hd : o.deliveryPerson with
              | none => rfl
              | some p => simp [hd] at hp
            refine Or.inr ⟨id, o, _, h, ?_, ?_, rfl⟩
            · rfl
            · exact Or.inr ⟨hnone, rfl⟩
  | delivered user id =>
    simp only [applyOp, delivered]
    split
    · exact Or.inl rfl
    · cases h : findById s id with
      | none => exact Or.inl rfl
      | some o =>
        simp only []
        split
        · exact Or.inl rfl
        · split
          · exact Or.inl rfl
          · split
            · exact Or.inl rfl
            · refine Or.inr ⟨id, o, _, h, ?_, ?_, rfl⟩ <;> first | rfl | exact Or.inl rfl

theorem applyOp_step {s : Store} (hu : uniqueIds s) (op : Op) :
    uniqueIds (applyOp s op) ∧
    ∀ j o, findById s j = some o →
      ∃ o', findById (applyOp s op) j = some o' ∧ AssignmentKept o o' := by
  rcases applyOp_cases hu op with h | ⟨id0, o0, o1, h0, hid, hk, h⟩
  · rw [h]
    exact ⟨hu, fun j o hj => ⟨o, hj, assignmentKept_refl o⟩⟩
  · rw [h]
    exact ⟨uniqueIds_save hu o1, save_lookup h0 hid hk⟩

theorem runOps_keeps_assignment (ops : List Op) :
    ∀ (s : Store) (id : String) (o : Order), uniqueIds s → findById s id = some o →
      ∃ o', findById (runOps s ops) id = some o' ∧
        ∀ a, o.deliveryPerson = some a → o'.deliveryPerson = some a := by
  induction ops with
  | nil => intro s id o _ h; exact ⟨o, h, fun _ ha => ha⟩
  | cons op rest ih =>
    intro s id o hu h
    obtain ⟨hu1, hstep⟩ := applyOp_step hu op
    obtain ⟨o1, h1, hk⟩ := hstep id o h
    obtain ⟨o2, h2, hkeep⟩ := ih (applyOp s op) id o1 hu1 h1
    refine ⟨o2, h2, fun a ha => hkeep a ?_⟩
    rcases hk with hk | ⟨hnone, _⟩
    · rw [hk, ha]
    · rw [hnone] at ha; cases ha

/-! ## Lemmas on order creation -/

theorem processItems_ok (svc : Services) :
    ∀ (items : List CreateItem) (total : Int) (acc : List OrderItem) (t : Int)
      (l : List OrderItem), processItems svc items total acc = .ok (t, l) →
      ∃ ms : List MenuItem, items.map (fun it => svc.menu it.menuItem) = ms.map some ∧
        t = total + (List.zipWith (fun m it => m.price * (it.quantity : Int)) ms items).sum ∧
        l = acc ++ List.zipWith orderItemOf ms items := by
  intro items
  induction items with
  | nil =>
    intro total acc t l h
    simp only [processItems, Except.ok.injEq, Prod.mk.injEq] at h
    exact ⟨[], rfl, by simp [h.1], by simp [h.2]⟩
  | cons it rest ih =>
    intro total acc t l h
    unfold processItems at h
    cases hm : svc.menu it.menuItem with
    | none => rw [hm] at h; cases h
    | some m =>
      rw [hm] at h
      simp only [] at h
      split at h
      · cases h
      · split at h
        · cases h
        · obtain ⟨ms, h1, h2, h3⟩ := ih _ _ t l h
          refine ⟨m :: ms, by simp [hm, h1], ?_, ?_⟩
          · rw [h2]; simp only [List.zipWith_cons_cons, List.sum_cons]; ring
          · rw [h3]; simp

theorem processItems_error_code (svc : Services) (r : Response) :
    ∀ (items : List CreateItem) (total : Int) (acc : List OrderItem),
      processItems svc items total acc = .error r → r.code ≠ 201 := by
  intro items
  induction items with
  | nil => intro total acc he; simp [processItems] at he
  | cons x rest ih =>
    intro total acc he
    unfold processItems at he
    split at he
    · cases he; simp
    · split at he
      · cases he; simp
      · split at he
        · cases he; simp
        · exact ih _ _ he

theorem processItems_unavailable (svc : Services) :
    ∀ (items : List CreateItem) (total : Int) (acc : List OrderItem),
      (∃ it ∈ items, ∃ m, svc.menu it.menuItem = some m ∧ m.isAvailable = false) →
      ∃ r, processItems svc items total acc = .error r := by
  intro items
  induction items with
  | nil => intro total acc h; simp at h
  | cons x rest ih =>
    intro total acc h
    unfold processItems
    cases hm : svc.menu x.menuItem with
    | none => exact ⟨_, rfl⟩
    | some mx =>
      simp only []
      split
      · exact ⟨_, rfl⟩
      · split
        · exact ⟨_, rfl⟩
        · rename_i hav
          obtain ⟨it, hit, m, hm', hf⟩ := h
          rcases List.mem_cons.mp hit with rfl | hrest
          · rw [hm] at hm'
            simp only [Option.some.injEq] at hm'
            subst hm'
            exact absurd hf hav
          · exact ih _ _ ⟨it, hrest, m, hm', hf⟩

theorem processItems_first_unavailable (svc : Services) (it : CreateItem) (m : MenuItem)
    (post : List CreateItem) (hm : svc.menu it.menuItem = some m) (hid : m._id ≠ "")
    (hf : m.isAvailable = false) :
    ∀ (pre : List CreateItem) (total : Int) (acc : List OrderItem),
      (∀ x ∈ pre, ∃ mx, svc.menu x.menuItem = some mx ∧ mx._id ≠ "" ∧ mx.isAvailable = true) →
      processItems svc (pre ++ it :: post) total acc =
        .error ⟨400, "Item " ++ m.name ++ " is not available", none⟩ := by
  intro pre
  induction pre with
  | nil =>
    intro total acc _
    simp [processItems, hm, hid, hf]
  | cons x rest ih =>
    intro total acc h
    obtain ⟨mx, hx, hxid, hxav⟩ := h x (List.mem_cons_self _ _)
    simp only [List.cons_append, processItems, hx, hxid, hxav, if_false]
    exact ih _ _ (fun y hy => h y (List.mem_cons_of_mem _ hy))

theorem placeOrder_created {svc : Services} {s : Store} {user : User} {details : UserDetails}
    {req : CreateRequest} {restaurantId : String} {subtotal : Int}
    {orderItems : List OrderItem} {newId : String} {now : Nat}
    (h : (placeOrder svc s user details req restaurantId subtotal orderItems newId
      now).response.code = 201) :
    ∃ order,
      (placeOrder svc s user details req restaurantId subtotal orderItems newId
        now).response.order = some order ∧
      order ∈ (placeOrder svc s user details req restaurantId subtotal orderItems newId
        now).store ∧
      order.items = orderItems ∧
      order.totalAmount = subtotal + feeOrZero req.deliveryFee ∧
      order.deliveryFee = feeOrZero req.deliveryFee := by
  generalize hres : placeOrder svc s user details req restaurantId subtotal orderItems newId
    now = res at h ⊢
  unfold placeOrder at hres
  split at hres
  · simp only [] at hres
    split at hres
    · subst hres; simp at h
    · split at hres
      · split at hres
        · subst hres
          exact ⟨_, rfl, by simp [save, persisted], rfl, rfl, rfl⟩
        · subst hres; simp at h
      · subst hres
        exact ⟨_, rfl, by simp, rfl, rfl, rfl⟩
  · subst hres; simp at h

theorem createOrder_created {svc : Services} {s : Store} {user : User} {details : UserDetails}
    {req : CreateRequest} {newId : String} {now : Nat}
    (h : (createOrder svc s user details req newId now).response.code = 201) :
    ∃ restaurantId subtotal orderItems,
      processItems svc req.items 0 [] = .ok (subtotal, orderItems) ∧
      createOrder svc s user details req newId now =
        placeOrder svc s user details req restaurantId subtotal orderItems newId now := by
  generalize hres : createOrder svc s user details req newId now = res at h ⊢
  unfold createOrder at hres
  split at hres
  · subst hres; simp at h
  · split at hres
    · subst hres; simp at h
    · split at hres
      · subst hres; simp at h
      · split at hres
        · subst hres; simp at h
        · subst hres; simp at h
        · split at hres
          · rename_i r hr
            subst hres
            exact absurd h (processItems_error_code svc r _ _ _ hr)
          · rename_i subtotal orderItems hok
            exact ⟨_, subtotal, orderItems, hok, hres.symm⟩

theorem createOrder_rejected_in_loop {svc : Services} {s : Store} {user : User}
    {details : UserDetails} {req : CreateRequest} {newId : String} {now : Nat}
    {r : Response} (hr : processItems svc req.items 0 [] = .error r) (hc : r.code ≠ 201) :
    (createOrder svc s user details req newId now).response.code ≠ 201 ∧
    (createOrder svc s user details req newId now).store = s ∧
    (createOrder svc s user details req newId now).intentRequests = [] := by
  unfold createOrder
  split
  · exact ⟨by simp, rfl, rfl⟩
  · split
    · exact ⟨by simp, rfl, rfl⟩
    · split
      · exact ⟨by simp, rfl, rfl⟩
      · split
        · exact ⟨by simp, rfl, rfl⟩
        · exact ⟨by simp, rfl, rfl⟩
        · rw [hr]
          exact ⟨hc, rfl, rfl⟩

theorem createOrder_reaches_loop {svc : Services} {s : Store} {user : User}
    {details : UserDetails} {req : CreateRequest} {newId : String} {now : Nat}
    {restaurantId : String} {r : Response}
    (hu : user._id ≠ "") (hrid : restaurantIdentifier req = some restaurantId)
    (hopen : svc.restaurantIsOpen restaurantId = some true)
    (hr : processItems svc req.items 0 [] = .error r) (hne : req.items ≠ []) :
    createOrder svc s user details req newId now = ⟨r, s, []⟩ := by
  have hemp : req.items.isEmpty = false := by
    cases hi : req.items with
    | nil => exact absurd hi hne
    | cons x xs => rfl
  simp [createOrder, hu, hrid, hemp, hopen, hr]

/-! ## Lemmas on the payment intent and on what the client supplies -/

theorem createOrder_requested {svc : Services} {s : Store} {user : User}
    {details : UserDetails} {req : CreateRequest} {newId : String} {now : Nat}
    (h : (createOrder svc s user details req newId now).intentRequests ≠ []) :
    ∃ restaurantId subtotal orderItems,
      processItems svc req.items 0 [] = .ok (subtotal, orderItems) ∧
      createOrder svc s user details req newId now =
        placeOrder svc s user details req restaurantId subtotal orderItems newId now := by
  generalize hres : createOrder svc s user details req newId now = res at h ⊢
  unfold createOrder at hres
  split at hres
  · subst hres; simp at h
  · split at hres
    · subst hres; simp at h
    · split at hres
      · subst hres; simp at h
      · split at hres
        · subst hres; simp at h
        · subst hres; simp at h
        · split at hres
          · subst hres; simp at h
          · rename_i subtotal orderItems hok
            exact ⟨_, subtotal, orderItems, hok, hres.symm⟩

theorem placeOrder_intent_failed {svc : Services} {s : Store} {user : User}
    {details : UserDetails} {req : CreateRequest} {restaurantId : String} {subtotal : Int}
    {orderItems : List OrderItem} {newId : String} {now : Nat}
    (h : (placeOrder svc s user details req restaurantId subtotal orderItems newId
      now).intentRequests ≠ [])
    (hfail : ∀ amount, svc.createIntent newId amount = none) :
    (placeOrder svc s user details req restaurantId subtotal orderItems newId now).response =
      ⟨400, "Payment initialization failed", none⟩ ∧
    ∃ order,
      findById (placeOrder svc s user details req restaurantId subtotal orderItems newId
        now).store newId = some order ∧
      order.paymentStatus = .failed ∧ order.status = .pending ∧
      order.paymentMethod = .card ∧ order.items = orderItems ∧
      order.totalAmount = subtotal + feeOrZero req.deliveryFee := by
  generalize hres : placeOrder svc s user details req restaurantId subtotal orderItems newId
    now = res at h ⊢
  unfold placeOrder at hres
  split at hres
  · simp only [] at hres
    split at hres
    · subst hres; simp at h
    · split at hres
      · rename_i hcard
        split at hres
        · rename_i pi hpi
          rw [hfail] at hpi
          cases hpi
        · subst hres
          refine ⟨rfl, _, findById_save_same ?_ rfl, rfl, rfl, hcard, rfl, rfl⟩
          simp only [findById, List.find?_isSome]
          exact ⟨_, List.mem_append_right _ (List.mem_singleton_self _), by simp⟩
      · subst hres; simp at h
  · subst hres; simp at h

theorem processItems_strip (svc : Services) :
    ∀ (items : List CreateItem) (total : Int) (acc : List OrderItem),
      processItems svc (items.map (fun item => { item with price := none })) total acc
        = processItems svc items total acc := by
  intro items
  induction items with
  | nil => intro total acc; rfl
  | cons x rest ih =>
    intro total acc
    simp only [List.map_cons, processItems]
    cases hm : svc.menu x.menuItem with
    | none => rfl
    | some m =>
      simp only []
      split
      · rfl
      · split
        · rfl
        · exact ih _ _

theorem createOrder_strip (svc : Services) (s : Store) (user : User) (details : UserDetails)
    (req : CreateRequest) (newId : String) (now : Nat) :
    createOrder svc s user details (stripClient req) newId now
      = createOrder svc s user details req newId now := by
  have hid : restaurantIdentifier (stripClient req) = restaurantIdentifier req := rfl
  have hitems : (stripClient req).items =
      req.items.map (fun item => { item with price := none }) := rfl
  have hemp : (req.items.map (fun item => { item with price := none })).isEmpty
      = req.items.isEmpty := by
    cases req.items <;> rfl
  unfold createOrder
  rw [hid, hitems, hemp, processItems_strip]
  rfl

/-! ## Lemmas on the fields fixed at creation -/

/-- Every order-service request leaves the collection as it was or saves one
loaded document with the same items, totalAmount, user, restaurant,
paymentMethod and paymentDetails. -/
theorem applyOp_frame_cases {s : Store} (hu : uniqueIds s) (op : Op) :
    applyOp s op = s ∨
    ∃ id0 o0 o1, findById s id0 = some o0 ∧ o1._id = o0._id ∧
      (frame o1, o1.paymentDetails) = (frame o0, o0.paymentDetails) ∧
      applyOp s op = save s o1 := by
  cases op with
  | patchStatus user id status =>
    simp only [applyOp, patchStatus]
    cases h : findOne s id user.restaurant with
    | none => exact Or.inl rfl
    | some o =>
      refine Or.inr ⟨id, o, _, findById_of_filter hu _ h, ?_, ?_, rfl⟩ <;> rfl
  | cancel user id =>
    simp only [applyOp, cancel]
    cases h : findById s id with
    | none => exact Or.inl rfl
    | some o =>
      simp only []
      split
      · exact Or.inl rfl
      · split
        · exact Or.inl rfl
        · refine Or.inr ⟨id, o, _, h, ?_, ?_, rfl⟩ <;> rfl
  | paymentSuccess id ref amount now =>
    simp only [applyOp, paymentSuccess]
    cases h : findById s id with
    | none => exact Or.inl rfl
    | some o => refine Or.inr ⟨id, o, _, h, ?_, ?_, rfl⟩ <;> rfl
  | paymentFailed id ref err now =>
    simp only [applyOp, paymentFailed]
    cases h : findById s id with
    | none => exact Or.inl rfl
    | some o => refine Or.inr ⟨id, o, _, h, ?_, ?_, rfl⟩ <;> rfl
  | updatePayment id ref paidAt amount now =>
    simp only [applyOp, updatePayment]
    cases h : findById s id with
    | none => exact Or.inl rfl
    | some o => refine Or.inr ⟨id, o, _, h, ?_, ?_, rfl⟩ <;> rfl
  | confirmCardPayment id ref now =>
    simp only [applyOp, confirmCardPayment]
    cases h : findById s id with
    | none => exact Or.inl rfl
    | some o =>
      simp only []
      split
      · exact Or.inl rfl
      · refine Or.inr ⟨id, o, _, h, ?_, ?_, rfl⟩ <;> rfl
  | updateCashPayment id now =>
    simp only [applyOp, updateCashPayment]
    cases h : s.find? (fun o => o._id == id && o.paymentMethod == .cash) with
    | none => exact Or.inl rfl
    | some o =>
      refine Or.inr ⟨id, o, _, findById_of_filter hu _ h, ?_, ?_, rfl⟩ <;> rfl
  | accept user id =>
    simp only [applyOp, accept]
    split
    · exact Or.inl rfl
    · cases h : findById s id with
      | none => exact Or.inl rfl
      | some o =>
        simp only []
        split
        · exact Or.inl rfl
        · split
          · exact Or.inl rfl
          · refine Or.inr ⟨id, o, _, h, ?_, ?_, rfl⟩ <;> rfl
  | delivered user id =>
    simp only [applyOp, delivered]
    split
    · exact Or.inl rfl
    · cases h : findById s id with
      | none => exact Or.inl rfl
      | some o =>
        simp only []
        split
        · exact Or.inl rfl
        · split
          · exact Or.inl rfl
          · split
            · exact Or.inl rfl
            · refine Or.inr ⟨id, o, _, h, ?_, ?_, rfl⟩ <;> rfl

theorem save_lookup_of {α : Type} (f : Order → α) {s : Store} {id0 : String} {o0 o1 : Order}
    (h0 : findById s id0 = some o0) (hid : o1._id = o0._id) (hk : f o1 = f o0)
    (j : String) (o : Order) (h : findById s j = some o) :
    ∃ o', findById (save s o1) j = some o' ∧ f o' = f o := by
  rw [findById_save]
  by_cases hj : j = o1._id
  · have hj0 : j = id0 := by rw [hj, hid]; exact findById_id h0
    subst hj0
    rw [h0] at h
    simp only [Option.some.injEq] at h
    subst h
    rw [if_pos hj, h0]
    exact ⟨o1, rfl, hk⟩
  · rw [if_neg hj]
    exact ⟨o, h, rfl⟩

theorem runOps_keeps_fixed (ops : List Op) :
    ∀ (s : Store) (id : String) (o : Order), uniqueIds s → findById s id = some o →
      ∃ o', findById (runOps s ops) id = some o' ∧
        (frame o', o'.paymentDetails) = (frame o, o.paymentDetails) := by
  induction ops with
  | nil => intro s id o _ h; exact ⟨o, h, rfl⟩
  | cons op rest ih =>
    intro s id o hu h
    have hstep : uniqueIds (applyOp s op) ∧
        ∃ o1, findById (applyOp s op) id = some o1 ∧
          (frame o1, o1.paymentDetails) = (frame o, o.paymentDetails) := by
      rcases applyOp_frame_cases hu op with he | ⟨id0, o0, o1, h0, hid, hk, he⟩
      · rw [he]; exact ⟨hu, o, h, rfl⟩
      · rw [he]
        exact ⟨uniqueIds_save hu o1,
          save_lookup_of (fun x => (frame x, x.paymentDetails)) h0 hid hk id o h⟩
    obtain ⟨hu1, o1, h1, hk1⟩ := hstep
    obtain ⟨o2, h2, hk2⟩ := ih (applyOp s op) id o1 hu1 h1
    exact ⟨o2, h2, hk2.trans hk1⟩

theorem runOps_keeps_frame (ops : List Op) :
    ∀ (s : Store) (id : String) (o : Order), uniqueIds s → findById s id = some o →
      ∃ o', findById (runOps s ops) id = some o' ∧ frame o' = frame o := by
  intro s id o hu h
  obtain ⟨o', h', hk⟩ := runOps_keeps_fixed ops s id o hu h
  exact ⟨o', h', congrArg Prod.fst hk⟩

theorem runOps_keeps_reference (ops : List Op) (s : Store) (id : String) (o : Order)
    (hu : uniqueIds s) (h : findById s id = some o) :
    (findById (runOps s ops) id).map paymentReference = some (paymentReference o) := by
  obtain ⟨o', h', hk⟩ := runOps_keeps_fixed ops s id o hu h
  have hd : o'.paymentDetails = o.paymentDetails := congrArg Prod.snd hk
  rw [h']
  simp [paymentReference, hd]

/-! ## Lemmas on the watcher -/

theorem onChange_ok (gatewayError : Option String) (st : WatcherState) (event : ChangeEvent) :
    onChange gatewayError st event =
      .ok (match gatewayError, notificationOf event with
        | _, none => st
        | none, some (phone, message) =>
          { st with sent := st.sent ++ [⟨formatPhone phone, message⟩] }
        | some error, some _ => { st with errors := st.errors ++ [error] }) := by
  unfold onChange changeBody sendSMS
  cases hn : notificationOf event with
  | none => cases gatewayError <;> rfl
  | some n =>
    obtain ⟨phone, message⟩ := n
    cases gatewayError <;> rfl

theorem watch_ok (events : List (ChangeEvent × Option String)) :
    ∀ st : WatcherState, ∃ st', watch st events = .ok st' ∧ st'.orders = st.orders ∧
      st'.sent = st.sent ++ events.filterMap deliveredOf := by
  induction events with
  | nil => intro st; exact ⟨st, rfl, rfl, by simp⟩
  | cons e rest ih =>
    intro st
    obtain ⟨event, gatewayError⟩ := e
    simp only [watch, onChange_ok]
    cases hn : notificationOf event with
    | none =>
      obtain ⟨st', h1, h2, h3⟩ := ih st
      refine ⟨st', ?_, h2, ?_⟩
      · cases gatewayError <;> simpa using h1
      · rw [h3]; cases gatewayError <;> simp [deliveredOf, hn]
    | some n =>
      obtain ⟨phone, message⟩ := n
      cases gatewayError with
      | none =>
        obtain ⟨st', h1, h2, h3⟩ :=
          ih { st with sent := st.sent ++ [⟨formatPhone phone, message⟩] }
        refine ⟨st', by simpa using h1, h2, ?_⟩
        rw [h3]; simp [deliveredOf, hn]
      | some error =>
        obtain ⟨st', h1, h2, h3⟩ := ih { st with errors := st.errors ++ [error] }
        refine ⟨st', by simpa using h1, h2, ?_⟩
        rw [h3]; simp [deliveredOf, hn]

/-! ## C1: status update and the transition graph -/

/-- C1 (as stated, refuted): a `pending` order is moved straight to `ready`,
which is no edge of the transition graph, by the order service's status
update and by the delivery service's `updateOrderStatus`; both answer with the
updated order and store the new status. -/
theorem status_update_off_graph_accepted :
    specEdge .pending .ready = false ∧
    (patchStatus [sampleOrder .pending .pending .card none] restaurantUser "o1" .ready).1.code
      = 200 ∧
    (findById (patchStatus [sampleOrder .pending .pending .card none] restaurantUser "o1"
      .ready).2 "o1").map (fun o => o.status) = some .ready ∧
    specEdge .delivered .pending = false ∧
    (findById (updateOrderStatus [sampleOrder .delivered .paid .card none] "o1"
      .pending).2 "o1").map (fun o => o.status) = some .pending := by
  decide

/-- C1 (amended): for every stored order and every target status of the
schema, the status update stores the target status and returns the updated
order, whether or not (current, target) is an edge of the transition graph;
every other field of the order and every other order is left as it was.  This
holds of the order service's `PATCH /:id/status` (for an order of the
requester's restaurant) and of the delivery service's `updateOrderStatus`. -/
theorem status_update_sets_any_target (s : Store) (user : User) (id : String)
    (target : Status) (o o' : Order)
    (h : findOne s id user.restaurant = some o) (h' : findById s id = some o') :
    (patchStatus s user id target).1 = ⟨200, "", some { o with status := target }⟩ ∧
    findById (patchStatus s user id target).2 id = some { o with status := target } ∧
    (∀ j, j ≠ id → findById (patchStatus s user id target).2 j = findById s j) ∧
    (updateOrderStatus s id target).1 = some { o' with status := target } ∧
    findById (updateOrderStatus s id target).2 id = some { o' with status := target } ∧
    (∀ j, j ≠ id → findById (updateOrderStatus s id target).2 j = findById s j) := by
  have hid := findOne_id h
  have hid' := findById_id h'
  have hs := findOne_findById h
  simp only [patchStatus, h, updateOrderStatus, h']
  refine ⟨trivial, findById_save_same hs hid, ?_, trivial, findById_save_same hs hid', ?_⟩
  · intro j hj
    exact findById_save_other (by simpa [hid] using hj)
  · intro j hj
    exact findById_save_other (by simpa [hid'] using hj)

/-- Witness for `status_update_sets_any_target`: the `pending` sample order
moved to `ready`. -/
theorem status_update_sets_any_target_witness :
    (patchStatus [sampleOrder .pending .pending .card none] restaurantUser "o1" .ready).1
      = ⟨200, "", some (sampleOrder .ready .pending .card none)⟩ ∧
    findById (patchStatus [sampleOrder .pending .pending .card none] restaurantUser "o1"
      .ready).2 "o1" = some (sampleOrder .ready .pending .card none) :=
  have h := status_update_sets_any_target [sampleOrder .pending .pending .card none]
    restaurantUser "o1" .ready (sampleOrder .pending .pending .card none)
    (sampleOrder .pending .pending .card none) (by decide) (by decide)
  ⟨h.1, h.2.1⟩

/-! ## C2: the reported amount is not compared with the order total -/

/-- C2 (as stated, refuted): for a card order of total 1050 with payment
pending, a successful-payment outcome reporting the amount 900 is answered
with 200 and the order is stored as paid, by `payment-success` and by
`update-payment` alike. -/
theorem amount_mismatch_still_marks_paid :
    (sampleOrder .pending .pending .card none).totalAmount = 1050 ∧
    (paymentSuccess [sampleOrder .pending .pending .card none] "o1"
      (some "pi_1") (some 900) 5).1.code = 200 ∧
    (findById (paymentSuccess [sampleOrder .pending .pending .card none] "o1"
      (some "pi_1") (some 900) 5).2 "o1").map (fun o => o.paymentStatus) = some .paid ∧
    (updatePayment [sampleOrder .pending .pending .card none] "o1"
      (some "pi_1") none (some 900) 5).1.code = 200 ∧
    (findById (updatePayment [sampleOrder .pending .pending .card none] "o1"
      (some "pi_1") none (some 900) 5).2 "o1").map (fun o => o.paymentStatus) = some .paid := by
  decide

/-- C2 (amended): for every existing order and every reported amount, equal to
the order's totalAmount or not, `payment-success` and `update-payment` answer
200 and store paymentStatus paid.  The stored order is the order as it was
with paymentStatus paid (and, after `payment-success`, status confirmed): its
totalAmount is left as it was and the reported amount is stored nowhere. -/
theorem payment_success_ignores_amount (s : Store) (id : String) (ref : Option String)
    (paidAt : Option Nat) (amount : Option Int) (now : Nat) (o : Order)
    (h : findById s id = some o) :
    (paymentSuccess s id ref amount now).1.code = 200 ∧
    findById (paymentSuccess s id ref amount now).2 id =
      some { o with paymentStatus := .paid, status := .confirmed } ∧
    (updatePayment s id ref paidAt amount now).1.code = 200 ∧
    findById (updatePayment s id ref paidAt amount now).2 id =
      some { o with paymentStatus := .paid } :=
  ⟨(paymentSuccess_found ref amount now h).1, (paymentSuccess_found ref amount now h).2,
    (updatePayment_found ref paidAt amount now h).1,
    (updatePayment_found ref paidAt amount now h).2⟩

/-- Witness for `payment_success_ignores_amount`: total 1050, reported
amount 900. -/
theorem payment_success_ignores_amount_witness :
    findById [sampleOrder .pending .pending .card none] "o1" =
      some (sampleOrder .pending .pending .card none) ∧
    (paymentSuccess [sampleOrder .pending .pending .card none] "o1"
      (some "pi_1") (some 900) 5).1.code = 200 ∧
    findById (paymentSuccess [sampleOrder .pending .pending .card none] "o1"
      (some "pi_1") (some 900) 5).2 "o1" = some (sampleOrder .confirmed .paid .card none) ∧
    (updatePayment [sampleOrder .pending .pending .card none] "o1"
      (some "pi_1") none (some 900) 5).1.code = 200 ∧
    findById (updatePayment [sampleOrder .pending .pending .card none] "o1"
      (some "pi_1") none (some 900) 5).2 "o1" = some (sampleOrder .pending .paid .card none) :=
  ⟨by decide,
    payment_success_ignores_amount [sampleOrder .pending .pending .card none]
      "o1" (some "pi_1") none (some 900) 5
      (sampleOrder .pending .pending .card none) (by decide)⟩

/-! ## C3: a successful payment confirms the order unconditionally -/

/-- C3 (as stated, refuted): `payment-success` with the matching amount 1050
moves a card order that is already `preparing` back to `confirmed`, and moves
a `delivered` cash order to `confirmed`. -/
theorem payment_success_moves_status_back :
    (findById (paymentSuccess [sampleOrder .preparing .pending .card (some intentDetails)] "o1"
      (some "pi_1") (some 1050) 5).2 "o1").map (fun o => o.status) = some .confirmed ∧
    (findById (paymentSuccess [sampleOrder .delivered .pending .cash none] "o1"
      none (some 1050) 5).2 "o1").map (fun o => o.status) = some .confirmed := by
  decide

/-- C3 (amended): for every existing order, whatever its payment method and
its status, after `payment-success` the stored order has paymentStatus paid
and status confirmed.  `confirm-card-payment` does the same for every card
order, and answers a cash order with 400, leaving the collection as it was. -/
theorem payment_success_confirms_order (s : Store) (id : String) (ref : Option String)
    (amount : Option Int) (now : Nat) (o : Order) (h : findById s id = some o) :
    (∃ o1, findById (paymentSuccess s id ref amount now).2 id = some o1 ∧
      o1.paymentStatus = .paid ∧ o1.status = .confirmed) ∧
    (o.paymentMethod = .card →
      ∃ o2, findById (confirmCardPayment s id ref now).2 id = some o2 ∧
        o2.paymentStatus = .paid ∧ o2.status = .confirmed) ∧
    (o.paymentMethod = .cash →
      (confirmCardPayment s id ref now).1.code = 400 ∧
      (confirmCardPayment s id ref now).2 = s) :=
  ⟨⟨_, (paymentSuccess_found ref amount now h).2, rfl, rfl⟩,
    fun hc => ⟨_, (confirmCardPayment_card ref now h hc).2, rfl, rfl⟩,
    fun hc => by rw [confirmCardPayment_cash ref now h hc]; exact ⟨rfl, rfl⟩⟩

/-- Witness for `payment_success_confirms_order`: the pending card order of
total 1050 paid with amount 1050. -/
theorem payment_success_confirms_order_witness :
    ∃ o1, findById (paymentSuccess [sampleOrder .pending .pending .card (some intentDetails)]
      "o1" (some "pi_1") (some 1050) 5).2 "o1" = some o1 ∧
      o1.paymentStatus = .paid ∧ o1.status = .confirmed :=
  (payment_success_confirms_order [sampleOrder .pending .pending .card (some intentDetails)]
    "o1" (some "pi_1") (some 1050) 5
    (sampleOrder .pending .pending .card (some intentDetails)) (by decide)).1

/-! ## C4: a failed payment cancels the order unconditionally -/

/-- C4 (as stated, refuted): `payment-failed` cancels an order that is already
`confirmed`, and one that is already `delivered`. -/
theorem payment_failed_cancels_confirmed_order :
    (findById (paymentFailed [sampleOrder .confirmed .pending .card (some intentDetails)] "o1"
      (some "pi_1") (some "card_declined") 5).2 "o1").map (fun o => o.status)
      = some .cancelled ∧
    (findById (paymentFailed [sampleOrder .delivered .paid .card (some intentDetails)] "o1"
      (some "pi_1") (some "card_declined") 5).2 "o1").map (fun o => o.status)
      = some .cancelled := by
  decide

/-- C4 (amended): for every existing order, whatever its status, after
`payment-failed` the stored order has paymentStatus failed and status
cancelled. -/
theorem payment_failed_cancels_order (s : Store) (id : String) (ref err : Option String)
    (now : Nat) (o : Order) (h : findById s id = some o) :
    (paymentFailed s id ref err now).1.code = 200 ∧
    ∃ o1, findById (paymentFailed s id ref err now).2 id = some o1 ∧
      o1.paymentStatus = .failed ∧ o1.status = .cancelled :=
  ⟨(paymentFailed_found ref err now h).1, _, (paymentFailed_found ref err now h).2, rfl, rfl⟩

/-- Witness for `payment_failed_cancels_order`: a pending order whose payment
failed. -/
theorem payment_failed_cancels_order_witness :
    (paymentFailed [sampleOrder .pending .pending .card (some intentDetails)] "o1"
      (some "pi_1") (some "card_declined") 5).1.code = 200 ∧
    ∃ o1, findById (paymentFailed [sampleOrder .pending .pending .card (some intentDetails)]
      "o1" (some "pi_1") (some "card_declined") 5).2 "o1" = some o1 ∧
      o1.paymentStatus = .failed ∧ o1.status = .cancelled :=
  payment_failed_cancels_order [sampleOrder .pending .pending .card (some intentDetails)]
    "o1" (some "pi_1") (some "card_declined") 5
    (sampleOrder .pending .pending .card (some intentDetails)) (by decide)

/-! ## C5: replaying a successful payment outcome -/

/-- C5 (as stated, refuted): a pending card order is paid through
`payment-success` (status `confirmed`), the restaurant moves it to `preparing`
(an edge of the graph), and the same outcome is applied again: the order is
back in `confirmed`, not in the status it had before the replay. -/
theorem payment_replay_after_status_update_resets_status :
    specEdge .confirmed .preparing = true ∧
    (findById (patchStatus (paymentSuccess
        [sampleOrder .pending .pending .card none] "o1" (some "pi_1")
        (some 1050) 5).2 restaurantUser "o1" .preparing).2 "o1").map reconciliationKey
      = some (.preparing, .paid, none) ∧
    (findById (paymentSuccess (patchStatus (paymentSuccess
        [sampleOrder .pending .pending .card none] "o1" (some "pi_1")
        (some 1050) 5).2 restaurantUser "o1" .preparing).2 "o1" (some "pi_1")
        (some 1050) 9).2 "o1").map reconciliationKey
      = some (.confirmed, .paid, none) := by
  decide

/-- C5 (amended): applying the same successful outcome twice in direct
succession leaves every order with the status, paymentStatus and stored
payment reference it has after one application (`payment-success` and
`update-payment`).  When a status update to `t` is served between the two
applications to an existing order of the requester's restaurant, paymentStatus
and reference are again those of one application (paid, and the reference the
order stored before, which no application writes); `update-payment` leaves the
status `t` in place, whereas `payment-success` sets the status to confirmed
again. -/
theorem payment_outcome_replay (s : Store) (id : String) (ref : Option String)
    (paidAt : Option Nat) (amount : Option Int) (now1 now2 : Nat) (user : User)
    (t : Status) (o : Order) :
    (∀ j, (findById (paymentSuccess (paymentSuccess s id ref amount now1).2 id ref amount
        now2).2 j).map reconciliationKey
      = (findById (paymentSuccess s id ref amount now1).2 j).map reconciliationKey) ∧
    (∀ j, (findById (updatePayment (updatePayment s id ref paidAt amount now1).2 id ref paidAt
        amount now2).2 j).map reconciliationKey
      = (findById (updatePayment s id ref paidAt amount now1).2 j).map reconciliationKey) ∧
    (findById s id = some o → some o.restaurant = user.restaurant →
      (findById (paymentSuccess s id ref amount now1).2 id).map reconciliationKey
        = some (.confirmed, .paid, paymentReference o) ∧
      (findById (patchStatus (paymentSuccess s id ref amount now1).2 user id t).2
        id).map reconciliationKey = some (t, .paid, paymentReference o) ∧
      (findById (paymentSuccess (patchStatus (paymentSuccess s id ref amount now1).2 user id
        t).2 id ref amount now2).2 id).map reconciliationKey
        = some (.confirmed, .paid, paymentReference o) ∧
      (findById (updatePayment s id ref paidAt amount now1).2 id).map reconciliationKey
        = some (o.status, .paid, paymentReference o) ∧
      (findById (patchStatus (updatePayment s id ref paidAt amount now1).2 user id t).2
        id).map reconciliationKey = some (t, .paid, paymentReference o) ∧
      (findById (updatePayment (patchStatus (updatePayment s id ref paidAt amount now1).2 user
        id t).2 id ref paidAt amount now2).2 id).map reconciliationKey
        = some (t, .paid, paymentReference o)) := by
  refine ⟨?_, ?_, fun h hr => ⟨?_, ?_, ?_, ?_, ?_, ?_⟩⟩
  · intro j
    by_cases hj : j = id
    · subst hj
      cases hf : findById s j with
      | none =>
        rw [paymentSuccess_missing ref amount now1 hf, paymentSuccess_missing ref amount now2 hf]
      | some x =>
        have h1 := (paymentSuccess_found ref amount now1 hf).2
        have h2 := (paymentSuccess_found ref amount now2 h1).2
        rw [h2, h1]
    · rw [paymentSuccess_other ref amount now2 hj]
  · intro j
    by_cases hj : j = id
    · subst hj
      cases hf : findById s j with
      | none =>
        rw [updatePayment_missing ref paidAt amount now1 hf,
          updatePayment_missing ref paidAt amount now2 hf]
      | some x =>
        have h1 := (updatePayment_found ref paidAt amount now1 hf).2
        have h2 := (updatePayment_found ref paidAt amount now2 h1).2
        rw [h2, h1]
    · rw [updatePayment_other ref paidAt amount now2 hj]
  · rw [(paymentSuccess_found ref amount now1 h).2]; rfl
  · have h1 := (paymentSuccess_found ref amount now1 h).2
    rw [patchStatus_found user t h1 hr]; rfl
  · have h1 := (paymentSuccess_found ref amount now1 h).2
    have h2 := patchStatus_found user t h1 hr
    rw [(paymentSuccess_found ref amount now2 h2).2]; rfl
  · rw [(updatePayment_found ref paidAt amount now1 h).2]; rfl
  · have h1 := (updatePayment_found ref paidAt amount now1 h).2
    rw [patchStatus_found user t h1 hr]; rfl
  · have h1 := (updatePayment_found ref paidAt amount now1 h).2
    have h2 := patchStatus_found user t h1 hr
    rw [(updatePayment_found ref paidAt amount now2 h2).2]; rfl

/-- Witness for `payment_outcome_replay`: the pending card order, paid twice
with the outcome `pi_1`, in direct succession and around a status update to
`preparing`. -/
theorem payment_outcome_replay_witness :
    (findById (paymentSuccess (paymentSuccess
        [sampleOrder .pending .pending .card none] "o1" (some "pi_1")
        (some 1050) 5).2 "o1" (some "pi_1") (some 1050) 9).2 "o1").map reconciliationKey
      = (findById (paymentSuccess [sampleOrder .pending .pending .card none]
        "o1" (some "pi_1") (some 1050) 5).2 "o1").map reconciliationKey ∧
    (findById [sampleOrder .pending .pending .card none] "o1"
        = some (sampleOrder .pending .pending .card none) ∧
      some (sampleOrder .pending .pending .card none).restaurant = restaurantUser.restaurant) ∧
    (findById (paymentSuccess (patchStatus (paymentSuccess
        [sampleOrder .pending .pending .card none] "o1" (some "pi_1")
        (some 1050) 5).2 restaurantUser "o1" .preparing).2 "o1" (some "pi_1")
        (some 1050) 9).2 "o1").map reconciliationKey = some (.confirmed, .paid, none) ∧
    (findById (updatePayment (patchStatus (updatePayment
        [sampleOrder .pending .pending .card none] "o1" (some "pi_1") none
        (some 1050) 5).2 restaurantUser "o1" .preparing).2 "o1" (some "pi_1") none
        (some 1050) 9).2 "o1").map reconciliationKey = some (.preparing, .paid, none) :=
  have h := payment_outcome_replay [sampleOrder .pending .pending .card none]
    "o1" (some "pi_1") none (some 1050) 5 9 restaurantUser .preparing
    (sampleOrder .pending .pending .card none)
  ⟨h.1 "o1", ⟨by decide, by decide⟩, (h.2.2 (by decide) (by decide)).2.2.1,
    (h.2.2 (by decide) (by decide)).2.2.2.2.2⟩

/-! ## C6: the payment ledger holds at most one record per reference -/

/-- C6: for every sequence of webhook deliveries, events delivered again
included, the payments collection is left as it was, and so is the orders
collection: the webhook's request to `confirm-card-payment` carries no token
and is answered 401, so the delivery is answered 400 before the Payment
document is saved.  Hence the number of Payment documents per payment reference
never grows, a ledger that starts empty holds at most one document per
reference, and delivering the same settled payment a second time adds no
second document. -/
theorem webhook_adds_no_second_record (ledger : Ledger) (s : Store)
    (events : List (Option StripeEvent × Nat)) (event : StripeEvent) (now1 now2 : Nat)
    (ref : String) :
    runWebhooks ledger s events = (ledger, s) ∧
    (recordsOf (runWebhooks ledger s events).1 ref).length = (recordsOf ledger ref).length ∧
    (recordsOf (runWebhooks [] s events).1 ref).length ≤ 1 ∧
    (event.type = "payment_intent.succeeded" →
      (webhook ledger s (some event) now1).code = some 400) ∧
    (runWebhooks ledger s [(some event, now1), (some event, now2)]).1 =
      (runWebhooks ledger s [(some event, now1)]).1 := by
  refine ⟨runWebhooks_keeps_collections events ledger s, ?_, ?_, fun ht => ?_, ?_⟩
  · rw [runWebhooks_keeps_collections events ledger s]
  · rw [runWebhooks_keeps_collections events [] s]
    exact Nat.zero_le 1
  · simp [webhook, ht, confirmCardPaymentRequest]
  · rw [runWebhooks_keeps_collections, runWebhooks_keeps_collections]

/-- Witness for `webhook_adds_no_second_record`: the succeeded event of the
card order `o1` is delivered twice; both deliveries are answered 400, the
ledger is still empty and the order is still pending and unpaid. -/
theorem webhook_adds_no_second_record_witness :
    succeededEvent.type = "payment_intent.succeeded" ∧
    (webhook [] [sampleOrder .pending .pending .card none] (some succeededEvent) 5).code
      = some 400 ∧
    runWebhooks [] [sampleOrder .pending .pending .card none]
      [(some succeededEvent, 5), (some succeededEvent, 9)]
      = ([], [sampleOrder .pending .pending .card none]) :=
  have h := webhook_adds_no_second_record [] [sampleOrder .pending .pending .card none]
    [(some succeededEvent, 5), (some succeededEvent, 9)] succeededEvent 5 9 "pi_1"
  ⟨by decide, h.2.2.2.1 (by decide), h.1⟩

/-! ## C7: the stored payment reference is never replaced -/

/-- C7: for every order whose stored payment reference is `r`, no order-service
operation replaces it: after `payment-success`, `update-payment`,
`payment-failed`, `confirm-card-payment` or `update-cash-payment`, whatever
reference the request carries, and after every sequence of order-service
requests, the stored reference is still `r`. -/
theorem payment_reference_never_replaced (s : Store) (id r : String)
    (ref err : Option String) (paidAt : Option Nat) (amount : Option Int) (now : Nat)
    (o : Order) (hu : uniqueIds s) (h : findById s id = some o)
    (hr : paymentReference o = some r) :
    (findById (paymentSuccess s id ref amount now).2 id).map paymentReference
      = some (some r) ∧
    (findById (updatePayment s id ref paidAt amount now).2 id).map paymentReference
      = some (some r) ∧
    (findById (paymentFailed s id ref err now).2 id).map paymentReference = some (some r) ∧
    (findById (confirmCardPayment s id ref now).2 id).map paymentReference
      = some (some r) ∧
    (findById (updateCashPayment s id now).2 id).map paymentReference = some (some r) ∧
    (∀ ops, (findById (runOps s ops) id).map paymentReference = some (some r)) := by
  have hall : ∀ ops, (findById (runOps s ops) id).map paymentReference = some (some r) :=
    fun ops => hr ▸ runOps_keeps_reference ops s id o hu h
  exact ⟨hall [.paymentSuccess id ref amount now], hall [.updatePayment id ref paidAt amount now],
    hall [.paymentFailed id ref err now], hall [.confirmCardPayment id ref now],
    hall [.updateCashPayment id now], hall⟩

/-- Witness for `payment_reference_never_replaced`: the order storing `pi_1`
receives outcomes carrying `pi_2`. -/
theorem payment_reference_never_replaced_witness :
    (uniqueIds [sampleOrder .pending .pending .card (some intentDetails)] ∧
      findById [sampleOrder .pending .pending .card (some intentDetails)] "o1"
        = some (sampleOrder .pending .pending .card (some intentDetails)) ∧
      paymentReference (sampleOrder .pending .pending .card (some intentDetails))
        = some "pi_1") ∧
    (findById (updatePayment [sampleOrder .pending .pending .card (some intentDetails)] "o1"
      (some "pi_2") none (some 1050) 5).2 "o1").map paymentReference = some (some "pi_1") ∧
    (findById (paymentFailed [sampleOrder .pending .pending .card (some intentDetails)] "o1"
      (some "pi_2") (some "card_declined") 5).2 "o1").map paymentReference
      = some (some "pi_1") :=
  have h := payment_reference_never_replaced
    [sampleOrder .pending .pending .card (some intentDetails)] "o1" "pi_1" (some "pi_2")
    (some "card_declined") none (some 1050) 5
    (sampleOrder .pending .pending .card (some intentDetails))
    (by unfold uniqueIds; decide) (by decide) (by decide)
  ⟨⟨by unfold uniqueIds; decide, by decide, by decide⟩, h.2.1, h.2.2.1⟩

/-! ## C8: a cash order is marked paid in any status -/

/-- C8 (as stated, refuted): `update-cash-payment` sets a cash order that is
still `pending` to paid and leaves it `pending`; `payment-success` sets it to
paid with status `confirmed`. -/
theorem cash_order_paid_before_delivery :
    (findById (updateCashPayment [sampleOrder .pending .pending .cash none] "o1" 5).2
      "o1").map (fun o => (o.paymentMethod, o.paymentStatus, o.status))
      = some (.cash, .paid, .pending) ∧
    (findById (paymentSuccess [sampleOrder .pending .pending .cash none] "o1" none
      (some 1050) 5).2 "o1").map (fun o => (o.paymentMethod, o.paymentStatus, o.status))
      = some (.cash, .paid, .confirmed) := by
  decide

/-- C8 (amended): for every existing cash order, whatever its status,
`update-cash-payment` and `update-payment` answer 200 and store paymentStatus
paid with the status left as it was, and `payment-success` stores
paymentStatus paid with status confirmed; the order stays a cash order. -/
theorem cash_order_paid_in_any_status (s : Store) (id : String) (ref : Option String)
    (paidAt : Option Nat) (amount : Option Int) (now : Nat) (o : Order)
    (h : findById s id = some o) (hc : o.paymentMethod = .cash) :
    (updateCashPayment s id now).1.code = 200 ∧
    (findById (updateCashPayment s id now).2 id).map
      (fun x => (x.paymentMethod, x.paymentStatus, x.status)) = some (.cash, .paid, o.status) ∧
    (updatePayment s id ref paidAt amount now).1.code = 200 ∧
    (findById (updatePayment s id ref paidAt amount now).2 id).map
      (fun x => (x.paymentMethod, x.paymentStatus, x.status)) = some (.cash, .paid, o.status) ∧
    (findById (paymentSuccess s id ref amount now).2 id).map
      (fun x => (x.paymentMethod, x.paymentStatus, x.status))
      = some (.cash, .paid, .confirmed) := by
  refine ⟨(updateCashPayment_cash now h hc).1, ?_,
    (updatePayment_found ref paidAt amount now h).1, ?_, ?_⟩
  · rw [(updateCashPayment_cash now h hc).2]; simp [hc]
  · rw [(updatePayment_found ref paidAt amount now h).2]; simp [hc]
  · rw [(paymentSuccess_found ref amount now h).2]; simp [hc]

/-- Witness for `cash_order_paid_in_any_status`: the pending cash order. -/
theorem cash_order_paid_in_any_status_witness :
    (updateCashPayment [sampleOrder .pending .pending .cash none] "o1" 5).1.code = 200 ∧
    (findById (updateCashPayment [sampleOrder .pending .pending .cash none] "o1" 5).2
      "o1").map (fun x => (x.paymentMethod, x.paymentStatus, x.status))
      = some (.cash, .paid, .pending) :=
  have h := cash_order_paid_in_any_status [sampleOrder .pending .pending .cash none] "o1"
    none none (some 1050) 5 (sampleOrder .pending .pending .cash none) (by decide) (by decide)
  ⟨h.1, h.2.1⟩

/-! ## C9: a card order paid through `update-payment` keeps its status -/

/-- C9 (as stated, refuted): `update-payment` sets a pending card order to
paid and leaves its status `pending`. -/
theorem card_order_paid_while_pending :
    (updatePayment [sampleOrder .pending .pending .card (some intentDetails)] "o1"
      (some "pi_1") none (some 1050) 5).1.code = 200 ∧
    (findById (updatePayment [sampleOrder .pending .pending .card (some intentDetails)] "o1"
      (some "pi_1") none (some 1050) 5).2 "o1").map
      (fun o => (o.paymentMethod, o.paymentStatus, o.status))
      = some (.card, .paid, .pending) := by
  decide

/-- C9 (amended): for every existing card order, `payment-success` and
`confirm-card-payment` store paymentStatus paid together with status
confirmed, whereas `update-payment` stores paymentStatus paid and leaves the
status as it was (so a pending card order is paid while pending). -/
theorem card_order_paid_status (s : Store) (id : String) (ref : Option String)
    (paidAt : Option Nat) (amount : Option Int) (now : Nat) (o : Order)
    (h : findById s id = some o) (hc : o.paymentMethod = .card) :
    (findById (paymentSuccess s id ref amount now).2 id).map
      (fun x => (x.paymentMethod, x.paymentStatus, x.status))
      = some (.card, .paid, .confirmed) ∧
    (findById (confirmCardPayment s id ref now).2 id).map
      (fun x => (x.paymentMethod, x.paymentStatus, x.status))
      = some (.card, .paid, .confirmed) ∧
    (findById (updatePayment s id ref paidAt amount now).2 id).map
      (fun x => (x.paymentMethod, x.paymentStatus, x.status))
      = some (.card, .paid, o.status) := by
  refine ⟨?_, ?_, ?_⟩
  · rw [(paymentSuccess_found ref amount now h).2]; simp [hc]
  · rw [(confirmCardPayment_card ref now h hc).2]; simp [hc]
  · rw [(updatePayment_found ref paidAt amount now h).2]; simp [hc]

/-- Witness for `card_order_paid_status`: the pending card order confirmed
through `confirm-card-payment`. -/
theorem card_order_paid_status_witness :
    (findById (confirmCardPayment [sampleOrder .pending .pending .card (some intentDetails)]
      "o1" (some "pi_1") 5).2 "o1").map
      (fun x => (x.paymentMethod, x.paymentStatus, x.status))
      = some (.card, .paid, .confirmed) :=
  (card_order_paid_status [sampleOrder .pending .pending .card (some intentDetails)] "o1"
    (some "pi_1") none (some 1050) 5
    (sampleOrder .pending .pending .card (some intentDetails)) (by decide) (by decide)).2.1

/-! ## C10: claiming a ready order -/

/-- C10: for every order with status ready and no delivery person, and every
requester with the delivery role, `accept` answers 200 with the order in which
deliveryPerson is the requester and status is picked_up, every other field
being as before; that order is what the collection holds under the id
afterwards, and every other order is left as it was. -/
theorem accept_claims_ready_order (s : Store) (user : User) (id : String) (o : Order)
    (hrole : user.role = "delivery") (h : findById s id = some o)
    (hready : o.status = .ready) (hfree : o.deliveryPerson = none) :
    (accept s user id).1 =
      ⟨200, "", some { o with deliveryPerson := some user._id, status := .picked_up }⟩ ∧
    findById (accept s user id).2 id =
      some { o with deliveryPerson := some user._id, status := .picked_up } ∧
    (∀ j, j ≠ id → findById (accept s user id).2 j = findById s j) := by
  rw [accept_found user hrole h hready hfree]
  refine ⟨rfl, findById_save_same (by rw [h]; rfl) (id_of_found h rfl), ?_⟩
  intro j hj
  exact findById_save_other (fun e => hj (e.trans (id_of_found h rfl)))

/-- Witness for `accept_claims_ready_order`: agent `d1` claims the ready
sample order. -/
theorem accept_claims_ready_order_witness :
    (accept [sampleOrder .ready .pending .cash none] deliveryUser "o1").1 =
      ⟨200, "", some { sampleOrder .picked_up .pending .cash none with
        deliveryPerson := some "d1" }⟩ ∧
    findById (accept [sampleOrder .ready .pending .cash none] deliveryUser "o1").2 "o1" =
      some { sampleOrder .picked_up .pending .cash none with deliveryPerson := some "d1" } :=
  have h := accept_claims_ready_order [sampleOrder .ready .pending .cash none] deliveryUser
    "o1" (sampleOrder .ready .pending .cash none) (by decide) (by decide) (by decide)
    (by decide)
  ⟨h.1, h.2.1⟩

/-! ## C11: which failure a rejected claim reports -/

/-- C11 (as stated, refuted): agent `d1` claims the ready sample order and
succeeds; the claim of the same order by agent `d2` is then answered with
`Order is not ready for delivery`, not with the already-assigned result. -/
theorem second_claim_answered_not_ready :
    (accept [sampleOrder .ready .pending .cash none] deliveryUser "o1").1.code = 200 ∧
    (accept (accept [sampleOrder .ready .pending .cash none] deliveryUser "o1").2
      otherDeliveryUser "o1").1 = ⟨400, "Order is not ready for delivery", none⟩ ∧
    (accept (accept [sampleOrder .ready .pending .cash none] deliveryUser "o1").2
      otherDeliveryUser "o1").1.message ≠ "Order already assigned to a delivery person" := by
  decide

/-- C11 (amended): for every existing order on which the claim precondition
fails, `accept` by a delivery agent leaves the collection unchanged; it answers
`Order is not ready for delivery` whenever the status is not ready, whether or
not a delivery person is assigned, and `Order already assigned to a delivery
person` only when the status is ready and a delivery person is assigned.
After a successful claim of a ready order, a claim of the same order by
another agent is answered with `Order is not ready for delivery`. -/
theorem accept_rejects_failed_precondition (s : Store) (user other : User) (id : String)
    (o : Order) (hrole : user.role = "delivery") (hother : other.role = "delivery")
    (h : findById s id = some o) :
    (o.status ≠ .ready →
      accept s user id = (⟨400, "Order is not ready for delivery", none⟩, s)) ∧
    (o.status = .ready → o.deliveryPerson.isSome = true →
      accept s user id = (⟨400, "Order already assigned to a delivery person", none⟩, s)) ∧
    (o.status = .ready → o.deliveryPerson = none →
      accept (accept s user id).2 other id =
        (⟨400, "Order is not ready for delivery", none⟩, (accept s user id).2)) := by
  refine ⟨fun hst => ?_, fun hst hp => ?_, fun hst hp => ?_⟩
  · simp [accept, hrole, h, hst]
  · simp [accept, hrole, h, hst, hp]
  · rw [accept_found user hrole h hst hp]
    have h1 : findById (save s { o with deliveryPerson := some user._id, status := .picked_up })
        id = some { o with deliveryPerson := some user._id, status := .picked_up } :=
      findById_save_same (by rw [h]; rfl) (id_of_found h rfl)
    simp [accept, hother, h1]

/-- Witness for `accept_rejects_failed_precondition`: the sample order already
picked up by `d1` is claimed by `d2`. -/
theorem accept_rejects_failed_precondition_witness :
    accept [claimedOrder .pending .cash] otherDeliveryUser "o1" =
      (⟨400, "Order is not ready for delivery", none⟩, [claimedOrder .pending .cash]) :=
  (accept_rejects_failed_precondition [claimedOrder .pending .cash] otherDeliveryUser
    deliveryUser "o1" (claimedOrder .pending .cash) (by decide) (by decide) (by decide)).1
    (by decide)

/-! ## C12: concurrent claims -/

/-- C12 (the code at the failing schedule): agents `d1` and `d2` claim the
ready, unassigned sample order.  When both requests load the order before
either saves (schedule 0, 1, 0, 1), both are answered with 200 and the order
ends with the delivery person of the request that saved last.  When the
requests are served one after the other (schedule 0, 0, 1, 1), the first is
answered with 200 and the second with 400. -/
theorem concurrent_claims_both_succeed :
    (runClaims "o1" [sampleOrder .ready .pending .cash none]
      [deliveryUser, otherDeliveryUser] [0, 1, 0, 1]).answers.map
        (fun r => r.map (fun x => x.code)) = [some 200, some 200] ∧
    (findById (runClaims "o1" [sampleOrder .ready .pending .cash none]
      [deliveryUser, otherDeliveryUser] [0, 1, 0, 1]).store "o1").map
        (fun o => (o.deliveryPerson, o.status)) = some (some "d2", .picked_up) ∧
    (runClaims "o1" [sampleOrder .ready .pending .cash none]
      [deliveryUser, otherDeliveryUser] [0, 0, 1, 1]).answers.map
        (fun r => r.map (fun x => x.code)) = [some 200, some 400] := by
  decide

/-! ## C13: the delivery person of an order -/

/-- C13 (as stated, refuted): the newly created sample order is confirmed,
prepared, made ready and claimed by `d1`; a failed-payment outcome then leaves
it `cancelled`, and a status update leaves it `pending`, with the delivery
person `d1` still set.  And when the claims of `d1` and `d2` for the ready
order interleave (both load the order before either saves), the order holds
`d1` after the first save and `d2` after the second: a delivery person that
is set is changed. -/
theorem assigned_order_leaves_picked_up :
    (findById (runOps [sampleOrder .pending .pending .cash none]
      [.patchStatus restaurantUser "o1" .confirmed, .patchStatus restaurantUser "o1" .preparing,
        .patchStatus restaurantUser "o1" .ready, .accept deliveryUser "o1",
        .paymentFailed "o1" none none 5]) "o1").map (fun o => (o.deliveryPerson, o.status))
      = some (some "d1", .cancelled) ∧
    (findById (runOps [sampleOrder .pending .pending .cash none]
      [.patchStatus restaurantUser "o1" .confirmed, .patchStatus restaurantUser "o1" .preparing,
        .patchStatus restaurantUser "o1" .ready, .accept deliveryUser "o1",
        .patchStatus restaurantUser "o1" .pending]) "o1").map
        (fun o => (o.deliveryPerson, o.status))
      = some (some "d1", .pending) ∧
    (findById (runClaims "o1" [sampleOrder .ready .pending .cash none]
      [deliveryUser, otherDeliveryUser] [0, 1, 0]).store "o1").map
        (fun o => o.deliveryPerson) = some (some "d1") ∧
    (findById (runClaims "o1" [sampleOrder .ready .pending .cash none]
      [deliveryUser, otherDeliveryUser] [0, 1, 0, 1]).store "o1").map
        (fun o => o.deliveryPerson) = some (some "d2") := by
  decide

/-- C13 (amended): in a collection whose ids identify the orders, and with the
requests served one after the other (each from its `findById` to its `save`
before the next starts), an order whose deliveryPerson is set keeps that
deliveryPerson through every sequence of order-service requests (status
update, cancel, the payment handlers, accept, delivered), and a single request
that sets the deliveryPerson of an unassigned order leaves it with status
picked_up. -/
theorem delivery_person_stable (s : Store) (ops : List Op) (op : Op) (id : String)
    (o : Order) (hu : uniqueIds s) (h : findById s id = some o) :
    (∃ o', findById (runOps s ops) id = some o' ∧
      ∀ a, o.deliveryPerson = some a → o'.deliveryPerson = some a) ∧
    (∃ o', findById (applyOp s op) id = some o' ∧
      (o.deliveryPerson = none → o'.deliveryPerson ≠ none → o'.status = .picked_up)) := by
  refine ⟨runOps_keeps_assignment ops s id o hu h, ?_⟩
  obtain ⟨o', h', hk⟩ := (applyOp_step hu op).2 id o h
  refine ⟨o', h', fun hnone hset => ?_⟩
  rcases hk with hk | ⟨_, hst⟩
  · rw [hk] at hset
    exact absurd hnone hset
  · exact hst

/-- Witness for `delivery_person_stable`: the order picked up by `d1` keeps
`d1` through a failed payment, a status update and the claim of `d2`, served
one after the other. -/
theorem delivery_person_stable_witness :
    (uniqueIds [claimedOrder .pending .cash] ∧
      findById [claimedOrder .pending .cash] "o1" = some (claimedOrder .pending .cash)) ∧
    ∃ o', findById (runOps [claimedOrder .pending .cash]
        [.paymentFailed "o1" none none 5, .patchStatus restaurantUser "o1" .ready,
          .accept otherDeliveryUser "o1"]) "o1"
        = some o' ∧ o'.deliveryPerson = some "d1" :=
  ⟨⟨by unfold uniqueIds; decide, by decide⟩,
    match (delivery_person_stable [claimedOrder .pending .cash]
      [.paymentFailed "o1" none none 5, .patchStatus restaurantUser "o1" .ready,
        .accept otherDeliveryUser "o1"]
      (.accept deliveryUser "o1") "o1" (claimedOrder .pending .cash)
      (by unfold uniqueIds; decide) (by decide)).1 with
    | ⟨o', h1, h2⟩ => ⟨o', h1, h2 "d1" (by decide)⟩⟩

/-! ## C14: marking an order delivered without being assigned -/

/-- C14 (the code at the failing input): for the ready sample order, to which
no delivery person is assigned, `delivered` by agent `d1` answers 500 with the
`TypeError` message and leaves the collection unchanged; for the order picked
up by `d1`, `delivered` by agent `d2` answers 403. -/
theorem delivered_unassigned_order_answers_500 :
    delivered [sampleOrder .ready .pending .cash none] deliveryUser "o1" =
      (⟨500, typeErrorMessage, none⟩, [sampleOrder .ready .pending .cash none]) ∧
    delivered [claimedOrder .pending .cash] otherDeliveryUser "o1" =
      (⟨403, "Not authorized to mark this order as delivered", none⟩,
        [claimedOrder .pending .cash]) := by
  decide

/-! ## C15: marking a cash order delivered -/

/-- C15 (as stated, refuted): the cash sample order, picked up by `d1` and not
yet paid, is marked delivered by `d1`: the status is `delivered`, the
paymentStatus is still `pending`, and no delivery report has been written. -/
theorem delivered_cash_order_stays_unpaid :
    (markDelivered ⟨[claimedOrder .pending .cash], []⟩ deliveryUser "o1").1.code = 200 ∧
    (findById (markDelivered ⟨[claimedOrder .pending .cash], []⟩ deliveryUser "o1").2.orders
      "o1").map (fun o => (o.paymentMethod, o.status, o.paymentStatus))
      = some (.cash, .delivered, .pending) ∧
    reportsOf (markDelivered ⟨[claimedOrder .pending .cash], []⟩ deliveryUser "o1").2.reports
      "o1" = [] := by
  decide

/-- C15 (amended): for every order in status picked_up, of either payment
method, `delivered` by the assigned agent answers 200 and stores the order
with status delivered and every other field, paymentStatus included, as it
was; the deliveries collection is left as it was. -/
theorem delivered_sets_status_only (sys : System) (user : User) (id : String) (o : Order)
    (hrole : user.role = "delivery") (h : findById sys.orders id = some o)
    (hp : o.deliveryPerson = some user._id) (hst : o.status = .picked_up) :
    (markDelivered sys user id).1 = ⟨200, "", some { o with status := .delivered }⟩ ∧
    findById (markDelivered sys user id).2.orders id = some { o with status := .delivered } ∧
    (markDelivered sys user id).2.reports = sys.reports := by
  simp only [markDelivered, delivered_found user hrole h hp hst]
  exact ⟨trivial, findById_save_same (by rw [h]; rfl) (id_of_found h rfl), trivial⟩

/-- Witness for `delivered_sets_status_only`: the cash order picked up by `d1`. -/
theorem delivered_sets_status_only_witness :
    (markDelivered ⟨[claimedOrder .pending .cash], []⟩ deliveryUser "o1").1 =
      ⟨200, "", some { claimedOrder .pending .cash with status := .delivered }⟩ :=
  (delivered_sets_status_only ⟨[claimedOrder .pending .cash], []⟩ deliveryUser "o1"
    (claimedOrder .pending .cash) (by decide) (by decide) (by decide) (by decide)).1

/-! ## C16: delivery reports are appended without a uniqueness check -/

/-- C16 (as stated, refuted): the report of order `o1` is posted twice; the
second request is answered with 201 as well and the order has two reports. -/
theorem second_report_is_stored :
    (createDelivery (createDelivery [] sampleReport).2 sampleReport).1 = 201 ∧
    (reportsOf (createDeliveries [] [sampleReport, sampleReport]) "o1").length = 2 := by
  decide

/-- C16 (amended): for every report-creation request that carries the paths
the schema requires (ids, names, email, phone and address not empty),
whatever reports the collection holds already, the request is answered 201 and
the collection afterwards is the collection before followed by the new report
built from the request, with status delivered.  Posted `n` times, the request
leaves `n` new reports: an order that already has a report gets another one
with every further request. -/
theorem create_delivery_appends_one_per_request (reports : Reports)
    (orderId deliveryPersonId personName personEmail personPhone personId : String)
    (deliveryTime : Nat) (deliveryNotes : Option String) (items : List ReportItem)
    (totalAmount : Int) (customerName customerEmail customerPhone restaurant : String)
    (deliveryAddress : String) (n : Nat) (req : DeliveryRequest) (report : Delivery)
    (hreq : req = ⟨some orderId, some deliveryPersonId, some personName, some personEmail,
      some personPhone, some personId, some deliveryTime, deliveryNotes, items,
      some totalAmount, customerName, customerEmail, customerPhone, restaurant,
      some deliveryAddress⟩)
    (hreport : report = ⟨orderId, deliveryPersonId, personName, personEmail, personPhone,
      personId, deliveryTime, deliveryNotes.getD "", items, totalAmount, customerName,
      customerEmail, customerPhone, restaurant, deliveryAddress, "delivered"⟩)
    (hpresent : orderId ≠ "" ∧ deliveryPersonId ≠ "" ∧ personName ≠ "" ∧ personEmail ≠ "" ∧
      personPhone ≠ "" ∧ personId ≠ "" ∧ deliveryAddress ≠ "") :
    createDelivery reports req = (201, reports ++ [report]) ∧
    createDeliveries reports (List.replicate n req) = reports ++ List.replicate n report ∧
    (reportsOf (createDeliveries reports (List.replicate n req)) orderId).length
      = (reportsOf reports orderId).length + n := by
  obtain ⟨p1, p2, p3, p4, p5, p6, p7⟩ := hpresent
  have hone : ∀ rs : Reports, createDelivery rs req = (201, rs ++ [report]) := by
    intro rs
    subst hreq hreport
    cases deliveryNotes <;> simp [createDelivery, newDelivery, p1, p2, p3, p4, p5, p6, p7]
  have hmany : ∀ (k : Nat) (rs : Reports),
      createDeliveries rs (List.replicate k req) = rs ++ List.replicate k report := by
    intro k
    induction k with
    | zero => intro rs; simp [createDeliveries]
    | succ k ih =>
      intro rs
      simp only [List.replicate_succ, createDeliveries, hone rs]
      rw [ih, List.append_assoc]
      rfl
  refine ⟨hone reports, hmany n reports, ?_⟩
  have hid : report.orderId = orderId := by rw [hreport]
  rw [hmany n reports]
  simp [reportsOf, List.filter_append, List.filter_replicate, hid]

/-- Witness for `create_delivery_appends_one_per_request`: the report of order
`o1`, posted twice to the empty collection. -/
theorem create_delivery_appends_one_per_request_witness :
    createDelivery [] sampleReport =
      (201, [⟨"o1", "d1", "Kamal", "kamal@example.com", "0719876543", "d1", 100, "",
        [⟨"Rice and curry", 2, 500⟩], 1050, "Nimal", "nimal@example.com", "0771234567", "r1",
        "12 Lake Road", "delivered"⟩]) ∧
    createDeliveries [] (List.replicate 2 sampleReport) =
      [] ++ List.replicate 2 (⟨"o1", "d1", "Kamal", "kamal@example.com", "0719876543", "d1",
        100, "", [⟨"Rice and curry", 2, 500⟩], 1050, "Nimal", "nimal@example.com",
        "0771234567", "r1", "12 Lake Road", "delivered"⟩ : Delivery) ∧
    (reportsOf (createDeliveries [] (List.replicate 2 sampleReport)) "o1").length
      = (reportsOf [] "o1").length + 2 :=
  create_delivery_appends_one_per_request [] "o1" "d1" "Kamal" "kamal@example.com"
    "0719876543" "d1" 100 none [⟨"Rice and curry", 2, 500⟩] 1050 "Nimal" "nimal@example.com"
    "0771234567" "r1" "12 Lake Road" 2 sampleReport _ rfl rfl (by decide)

/-! ## C18: the total supplied by the client -/

/-- C18 (as stated, refuted): a request for two portions at catalogue price
500 with delivery fee 50 that supplies the total 1 (and the item price 1) is
answered with 201, and the order is stored with total 1050. -/
theorem mismatched_client_total_is_accepted :
    (sampleCreate "cash" (some 1) (some 1)).totalAmount = some 1 ∧
    (createOrder sampleServices [] customerUser customerDetails
      (sampleCreate "cash" (some 1) (some 1)) "o1" 1).response.code = 201 ∧
    (createOrder sampleServices [] customerUser customerDetails
      (sampleCreate "cash" (some 1) (some 1)) "o1" 1).store
      = [sampleOrder .pending .pending .cash none] ∧
    (sampleOrder .pending .pending .cash none).totalAmount = 1050 := by
  decide

/-- C18 (amended): the totalAmount supplied by the client is not read: for
every request, order creation with any other supplied total gives the same
answer, the same collection and the same payment-intent requests; when it is
answered with 201, the stored total is the sum of catalogue price times
quantity plus the delivery fee, whatever total was supplied. -/
theorem client_total_not_read (svc : Services) (s : Store) (user : User)
    (details : UserDetails) (req : CreateRequest) (newId : String) (now : Nat)
    (total : Option Int) :
    createOrder svc s user details { req with totalAmount := total } newId now
      = createOrder svc s user details req newId now ∧
    ((createOrder svc s user details req newId now).response.code = 201 →
      ∃ (order : Order) (ms : List MenuItem),
        (createOrder svc s user details { req with totalAmount := total } newId
          now).response.order = some order ∧
        order ∈ (createOrder svc s user details { req with totalAmount := total } newId
          now).store ∧
        req.items.map (fun it => svc.menu it.menuItem) = ms.map some ∧
        order.totalAmount =
          (List.zipWith (fun m it => m.price * (it.quantity : Int)) ms req.items).sum
            + feeOrZero req.deliveryFee) := by
  have heq : createOrder svc s user details { req with totalAmount := total } newId now
      = createOrder svc s user details req newId now := rfl
  refine ⟨heq, fun h => ?_⟩
  rw [heq]
  obtain ⟨rid, subtotal, orderItems, hok, hp⟩ := createOrder_created h
  rw [hp] at h ⊢
  obtain ⟨order, h1, h2, _, h4, _⟩ := placeOrder_created h
  obtain ⟨ms, hm1, hm2, _⟩ := processItems_ok svc _ _ _ _ _ hok
  exact ⟨order, ms, h1, h2, hm1, by rw [h4, hm2]; simp⟩

/-- Witness for `client_total_not_read`: the request with supplied total 1 is
stored with total 1050. -/
theorem client_total_not_read_witness :
    ∃ (order : Order) (ms : List MenuItem),
      (createOrder sampleServices [] customerUser customerDetails
        { sampleCreate "cash" none none with totalAmount := some 1 } "o1"
        1).response.order = some order ∧
      order ∈ (createOrder sampleServices [] customerUser customerDetails
        { sampleCreate "cash" none none with totalAmount := some 1 } "o1" 1).store ∧
      (sampleCreate "cash" none none).items.map (fun it => sampleServices.menu it.menuItem)
        = ms.map some ∧
      order.totalAmount =
        (List.zipWith (fun m it => m.price * (it.quantity : Int)) ms
          (sampleCreate "cash" none none).items).sum
          + feeOrZero (sampleCreate "cash" none none).deliveryFee :=
  (client_total_not_read sampleServices [] customerUser customerDetails
    (sampleCreate "cash" none none) "o1" 1 (some 1)).2 (by decide)

/-! ## C19: an item that is not available -/

/-- C19 (as stated, refuted): in a request whose first item `m3` cannot be
looked up and whose second item `m2` is not available, order creation is
answered with 500 `Error processing menu item`, not with 400. -/
theorem unavailable_item_after_failed_lookup :
    (sampleServices.menu "m2").map (fun m => m.isAvailable) = some false ∧
    (createOrder sampleServices [] customerUser customerDetails
      { sampleCreate "cash" none none with
        items := [⟨"m3", 1, none, none⟩, ⟨"m2", 1, none, none⟩] } "o1" 1).response
      = ⟨500, "Error processing menu item", none⟩ := by
  decide

/-- C19 (amended): for every order-creation request containing an item that
the menu service reports as not available, wherever it stands in the list,
order creation is not answered with 201, the collection is unchanged and no
payment intent is requested.  When the request passes the guards on the
requester and the restaurant and every item before the unavailable one is
found and available, the answer is 400 `Item <name> is not available` with the
name of that item. -/
theorem unavailable_item_rejects_order (svc : Services) (s : Store) (user : User)
    (details : UserDetails) (req : CreateRequest) (newId : String) (now : Nat)
    (it : CreateItem) (m : MenuItem)
    (hit : it ∈ req.items) (hm : svc.menu it.menuItem = some m) (hf : m.isAvailable = false) :
    ((createOrder svc s user details req newId now).response.code ≠ 201 ∧
      (createOrder svc s user details req newId now).store = s ∧
      (createOrder svc s user details req newId now).intentRequests = []) ∧
    (∀ restaurantId pre post, user._id ≠ "" →
      restaurantIdentifier req = some restaurantId →
      svc.restaurantIsOpen restaurantId = some true →
      req.items = pre ++ it :: post → m._id ≠ "" →
      (∀ x ∈ pre, ∃ mx, svc.menu x.menuItem = some mx ∧ mx._id ≠ "" ∧ mx.isAvailable = true) →
      createOrder svc s user details req newId now =
        ⟨⟨400, "Item " ++ m.name ++ " is not available", none⟩, s, []⟩) := by
  constructor
  · obtain ⟨r, hr⟩ := processItems_unavailable svc req.items 0 [] ⟨it, hit, m, hm, hf⟩
    exact createOrder_rejected_in_loop hr (processItems_error_code svc r _ _ _ hr)
  · intro rid pre post hu hrid hopen hitems hid hpre
    have hr := processItems_first_unavailable svc it m post hm hid hf pre 0 [] hpre
    rw [← hitems] at hr
    exact createOrder_reaches_loop hu hrid hopen hr (by rw [hitems]; simp)

/-- Witness for `unavailable_item_rejects_order`: the available `m1` followed by
the unavailable `m2`. -/
theorem unavailable_item_rejects_order_witness :
    (createOrder sampleServices [] customerUser customerDetails
      { sampleCreate "card" none none with
        items := [⟨"m1", 2, none, none⟩, ⟨"m2", 1, none, none⟩] } "o1" 1).response.code
      ≠ 201 ∧
    (createOrder sampleServices [] customerUser customerDetails
      { sampleCreate "card" none none with
        items := [⟨"m1", 2, none, none⟩, ⟨"m2", 1, none, none⟩] } "o1" 1).store = [] ∧
    (createOrder sampleServices [] customerUser customerDetails
      { sampleCreate "card" none none with
        items := [⟨"m1", 2, none, none⟩, ⟨"m2", 1, none, none⟩] } "o1" 1).intentRequests
      = [] :=
  (unavailable_item_rejects_order sampleServices [] customerUser customerDetails
    { sampleCreate "card" none none with
      items := [⟨"m1", 2, none, none⟩, ⟨"m2", 1, none, none⟩] } "o1" 1
    ⟨"m2", 1, none, none⟩ ⟨"m2", "Kottu", 300, false⟩ (by decide) (by decide) (by decide)).1

/-! ## C20: cancelling an order -/

/-- C20: for every existing order and a cancel request from the user who
placed it, the request succeeds exactly when the status is pending or
confirmed, and then stores the order with status cancelled and every other
field as it was; for every other status it is answered with 400 `Order cannot
be cancelled at this stage` and the collection is unchanged. -/
theorem cancel_by_placing_user (s : Store) (user : User) (id : String) (o : Order)
    (h : findById s id = some o) (hu : o.user = user._id) :
    ((cancel s user id).1.code = 200 ↔ (o.status = .pending ∨ o.status = .confirmed)) ∧
    (o.status = .pending ∨ o.status = .confirmed →
      (cancel s user id).1 = ⟨200, "", some { o with status := .cancelled }⟩ ∧
      findById (cancel s user id).2 id = some { o with status := .cancelled }) ∧
    (¬ (o.status = .pending ∨ o.status = .confirmed) →
      cancel s user id = (⟨400, "Order cannot be cancelled at this stage", none⟩, s)) := by
  have hok : o.status = .pending ∨ o.status = .confirmed →
      cancel s user id =
        (⟨200, "", some { o with status := .cancelled }⟩,
          save s { o with status := .cancelled }) := by
    intro hst
    rcases hst with hst | hst <;> simp [cancel, h, hu, hst]
  have hno : ¬ (o.status = .pending ∨ o.status = .confirmed) →
      cancel s user id = (⟨400, "Order cannot be cancelled at this stage", none⟩, s) := by
    intro hst
    rw [not_or] at hst
    simp [cancel, h, hu, hst.1, hst.2]
  refine ⟨⟨fun hc => ?_, fun hst => by rw [hok hst]⟩, fun hst => ?_, hno⟩
  · by_contra hst
    rw [hno hst] at hc
    simp at hc
  · rw [hok hst]
    exact ⟨rfl, findById_save_same (by rw [h]; rfl) (id_of_found h rfl)⟩

/-- Witness for `cancel_by_placing_user`: the customer cancels the pending
sample order. -/
theorem cancel_by_placing_user_witness :
    (cancel [sampleOrder .pending .pending .cash none] customerUser "o1").1 =
      ⟨200, "", some (sampleOrder .cancelled .pending .cash none)⟩ ∧
    findById (cancel [sampleOrder .pending .pending .cash none] customerUser "o1").2 "o1" =
      some (sampleOrder .cancelled .pending .cash none) :=
  (cancel_by_placing_user [sampleOrder .pending .pending .cash none] customerUser "o1"
    (sampleOrder .pending .pending .cash none) (by decide) (by decide)).2.1 (by decide)

/-! ## C21: who may cancel an order -/

/-- C21 (the code at the failing input): the pending sample order, placed by
`u1` at restaurant `r1`, is cancelled by the owner of `r1`, and by the delivery
agent `d1`.  Both requests are answered with 400 and the `TypeError` message
and leave the order pending: the owner is not authorised, and the other
requester does not receive 403. -/
theorem cancel_by_restaurant_owner_answers_400 :
    cancel [sampleOrder .pending .pending .cash none] restaurantUser "o1" =
      (⟨400, typeErrorMessage, none⟩, [sampleOrder .pending .pending .cash none]) ∧
    cancel [sampleOrder .pending .pending .cash none] deliveryUser "o1" =
      (⟨400, typeErrorMessage, none⟩, [sampleOrder .pending .pending .cash none]) := by
  decide

/-! ## C22: the message of a status update -/

/-- C22 (as stated, refuted): the event of the update of order `o1` to `ready`
reaches the watcher with the document looked up after the order has been
marked delivered.  The new status of the observed update is `ready`; the one
message sent is the text for `delivered`, not the text for `ready`. -/
theorem overtaken_update_gets_text_of_later_status :
    overtakenReadyEvent.updatedStatus = "ready" ∧
    (onChange none freshWatcher overtakenReadyEvent).toOption.map (fun st => st.sent) =
      some [⟨"+94771234567", "Your order #o1 has been delivered. Enjoy your meal!"⟩] ∧
    (onChange none freshWatcher overtakenReadyEvent).toOption.map (fun st => st.sent) ≠
      some [⟨"+94771234567", "Your order #o1 is ready for pickup!"⟩] := by
  decide

/-- C22 (amended): for every change event whose looked-up document has a
non-empty phone, the change handler hands exactly one message to the gateway,
addressed to that phone (written with a leading `+`), and its text is a
function of the id and the status of the looked-up document, whatever status
the event itself reports as updated: the template of `preparing`, `ready`,
`out_for_delivery`, `delivered` or `cancelled`, and the general text for every
other status.  When the gateway refuses the message, that one attempt is
logged and nothing else is sent. -/
theorem status_update_sends_one_message (st : WatcherState) (event : ChangeEvent)
    (order : WatchedOrder) (phone : String)
    (hdoc : event.fullDocument = some order) (hphone : order.phone = some phone)
    (hne : phone ≠ "") :
    onChange none st event =
      .ok { st with sent := st.sent ++ [⟨formatPhone phone, statusMessage order._id order.status⟩] } ∧
    (∀ error, onChange (some error) st event =
      .ok { st with errors := st.errors ++ [error] }) ∧
    (∀ id, statusMessage id "ready" = "Your order #" ++ id ++ " is ready for pickup!") ∧
    (∀ id, statusMessage id "preparing" =
      "Your order #" ++ id ++ " is now being prepared in the kitchen!") ∧
    (∀ id, statusMessage id "out_for_delivery" = "Your order #" ++ id ++ " is on its way to you!") ∧
    (∀ id, statusMessage id "delivered" =
      "Your order #" ++ id ++ " has been delivered. Enjoy your meal!") ∧
    (∀ id, statusMessage id "cancelled" = "Your order #" ++ id ++ " has been cancelled.") ∧
    (∀ id status, status ∉ ["preparing", "ready", "out_for_delivery", "delivered", "cancelled"] →
      statusMessage id status = "Your order #" ++ id ++ " status has been updated to: " ++ status) := by
  have hn : notificationOf event = some (phone, statusMessage order._id order.status) := by
    simp [notificationOf, hdoc, hphone, hne]
  refine ⟨?_, ?_, ?_, ?_, ?_, ?_, ?_, ?_⟩
  · rw [onChange_ok, hn]
  · intro error; rw [onChange_ok, hn]
  · intro id; simp [statusMessage]
  · intro id; simp [statusMessage]
  · intro id; simp [statusMessage]
  · intro id; simp [statusMessage]
  · intro id; simp [statusMessage]
  · intro id status hs
    simp only [List.mem_cons, List.mem_singleton, List.not_mem_nil, or_false, not_or] at hs
    simp [statusMessage, hs]

/-- Witness for `status_update_sends_one_message`: order `o1` becomes ready. -/
theorem status_update_sends_one_message_witness :
    (readyEvent.fullDocument = some ⟨"o1", "ready", some "94771234567"⟩ ∧
      "94771234567" ≠ "") ∧
    onChange none freshWatcher readyEvent =
      .ok { freshWatcher with
        sent := [⟨"+94771234567", "Your order #o1 is ready for pickup!"⟩] } :=
  ⟨⟨by decide, by decide⟩,
    (status_update_sends_one_message freshWatcher readyEvent
      ⟨"o1", "ready", some "94771234567"⟩ "94771234567" (by decide) (by decide)
      (by decide)).1⟩

/-! ## C23: repeated change events -/

/-- C23 (as stated, refuted): the change event of order `o1` becoming `ready`
is delivered to the watcher twice; the gateway receives the same message
twice. -/
theorem repeated_event_sends_second_message :
    (watch freshWatcher [(readyEvent, none), (readyEvent, none)]).toOption.map
        (fun st => st.sent) =
      some [⟨"+94771234567", "Your order #o1 is ready for pickup!"⟩,
        ⟨"+94771234567", "Your order #o1 is ready for pickup!"⟩] := by
  decide

/-- C23 (amended): for every sequence of change events delivered to the
watcher, the messages the gateway has accepted afterwards are those accepted
before followed by one message per event whose looked-up document has a
non-empty phone and whose message the gateway accepts, in the order of the
events, whether or not an earlier event carried the same order and status.
An event with such a document that is delivered twice leaves its message
twice. -/
theorem watcher_sends_one_message_per_event (st : WatcherState)
    (events : List (ChangeEvent × Option String)) (event : ChangeEvent)
    (order : WatchedOrder) (phone : String)
    (hdoc : event.fullDocument = some order) (hphone : order.phone = some phone)
    (hne : phone ≠ "") :
    (∃ st', watch st events = .ok st' ∧
      st'.sent = st.sent ++ events.filterMap (fun e =>
        match e.2, e.1.fullDocument with
        | none, some doc =>
          match doc.phone with
          | some number =>
            if number = "" then none
            else some ⟨formatPhone number, statusMessage doc._id doc.status⟩
          | none => none
        | _, _ => none)) ∧
    (∃ st', watch st [(event, none), (event, none)] = .ok st' ∧
      st'.sent = st.sent ++ [⟨formatPhone phone, statusMessage order._id order.status⟩,
        ⟨formatPhone phone, statusMessage order._id order.status⟩]) := by
  have hfun : deliveredOf = (fun e : ChangeEvent × Option String =>
      match e.2, e.1.fullDocument with
      | none, some doc =>
        match doc.phone with
        | some number =>
          if number = "" then none
          else some (⟨formatPhone number, statusMessage doc._id doc.status⟩ : Sms)
        | none => none
      | _, _ => none) := by
    funext e
    obtain ⟨ev, gatewayError⟩ := e
    cases gatewayError with
    | some error => simp [deliveredOf]
    | none =>
      cases hd : ev.fullDocument with
      | none => simp [deliveredOf, notificationOf, hd]
      | some doc =>
        cases hp : doc.phone with
        | none => simp [deliveredOf, notificationOf, hd, hp]
        | some number =>
          by_cases hn : number = ""
          · simp [deliveredOf, notificationOf, hd, hp, hn]
          · simp [deliveredOf, notificationOf, hd, hp, hn]
  constructor
  · obtain ⟨st', h1, _, h3⟩ := watch_ok events st
    exact ⟨st', h1, hfun ▸ h3⟩
  · obtain ⟨st', h1, _, h3⟩ := watch_ok [(event, none), (event, none)] st
    refine ⟨st', h1, ?_⟩
    rw [h3]
    simp [deliveredOf, notificationOf, hdoc, hphone, hne]

/-- Witness for `watcher_sends_one_message_per_event`: the event of order `o1`
becoming ready, delivered twice. -/
theorem watcher_sends_one_message_per_event_witness :
    (readyEvent.fullDocument = some ⟨"o1", "ready", some "94771234567"⟩ ∧
      "94771234567" ≠ "") ∧
    ∃ st', watch freshWatcher [(readyEvent, none), (readyEvent, none)] = .ok st' ∧
      st'.sent = [⟨"+94771234567", "Your order #o1 is ready for pickup!"⟩,
        ⟨"+94771234567", "Your order #o1 is ready for pickup!"⟩] :=
  ⟨⟨by decide, by decide⟩,
    (watcher_sends_one_message_per_event freshWatcher [] readyEvent
      ⟨"o1", "ready", some "94771234567"⟩ "94771234567" (by decide) (by decide)
      (by decide)).2⟩

/-! ## C24: a message the gateway refuses -/

/-- C24: for every change event and every error the gateway raises for its
message, the change handler completes normally: it logs the error, leaves the
orders collection and the accepted messages as they were, and raises nothing.
For every sequence of events, whatever the gateway does with each message, the
watcher runs to the end, the orders collection is as before, and the message
of every event the gateway does not refuse has been accepted. -/
theorem refused_message_is_logged (st : WatcherState) (event : ChangeEvent) (error : String)
    (events : List (ChangeEvent × Option String)) :
    (∃ st', onChange (some error) st event = .ok st' ∧ st'.orders = st.orders ∧
      st'.sent = st.sent ∧
      (notificationOf event ≠ none → st'.errors = st.errors ++ [error])) ∧
    (∃ st', watch st ((event, some error) :: events) = .ok st' ∧ st'.orders = st.orders ∧
      st'.sent = st.sent ++ events.filterMap deliveredOf) := by
  constructor
  · rw [onChange_ok]
    cases hn : notificationOf event with
    | none => exact ⟨st, rfl, rfl, rfl, fun h => absurd rfl h⟩
    | some n => exact ⟨_, rfl, rfl, rfl, fun _ => rfl⟩
  · obtain ⟨st', h1, h2, h3⟩ := watch_ok ((event, some error) :: events) st
    refine ⟨st', h1, h2, ?_⟩
    rw [h3]
    simp [deliveredOf]

/-! ## C25: the fields fixed at creation -/

/-- C25 (as stated, refuted): the delivery service's `PATCH /:orderId` with a
body carrying `totalAmount`, `paymentMethod` and `user` replaces these fields
of the sample order. -/
theorem patch_order_rewrites_fixed_fields :
    (findById [sampleOrder .pending .pending .cash none] "o1").map
        (fun o => (o.totalAmount, o.paymentMethod, o.user)) = some (1050, .cash, "u1") ∧
    (findById (patchOrder [sampleOrder .pending .pending .cash none] "o1"
      { totalAmount := some 1, paymentMethod := some .card, user := some "u7" }).2 "o1").map
        (fun o => (o.totalAmount, o.paymentMethod, o.user)) = some (1, .card, "u7") := by
  decide

/-- C25 (amended): in a collection whose ids identify the orders, no sequence
of order-service requests (status update, cancel, the payment handlers,
accept, delivered) changes the items, totalAmount, user, restaurant or
paymentMethod of an order, and neither does the delivery service's
`updateOrderStatus`.  The delivery service's `PATCH /:orderId` stores the order
with every field the body carries replaced, these fields included. -/
theorem order_service_keeps_fixed_fields (s : Store) (ops : List Op) (id : String)
    (o : Order) (status : Status) (updates : OrderUpdates)
    (hu : uniqueIds s) (h : findById s id = some o) :
    (∃ o', findById (runOps s ops) id = some o' ∧ frame o' = frame o) ∧
    (∃ o', findById (updateOrderStatus s id status).2 id = some o' ∧ frame o' = frame o) ∧
    findById (patchOrder s id updates).2 id = some (applyUpdates o updates) ∧
    frame (applyUpdates o updates) =
      (updates.items.getD o.items, updates.totalAmount.getD o.totalAmount,
        updates.user.getD o.user, updates.restaurant.getD o.restaurant,
        updates.paymentMethod.getD o.paymentMethod) := by
  refine ⟨runOps_keeps_frame ops s id o hu h, ?_, ?_, rfl⟩
  · simp only [updateOrderStatus, h]
    exact ⟨_, findById_save_same (by rw [h]; rfl) (id_of_found h rfl), rfl⟩
  · simp only [patchOrder, h]
    exact findById_save_same (by rw [h]; rfl) (id_of_found h rfl)

/-- Witness for `order_service_keeps_fixed_fields`: the sample order after a
status update, a payment and a claim. -/
theorem order_service_keeps_fixed_fields_witness :
    ∃ o', findById (runOps [sampleOrder .ready .pending .cash none]
        [.patchStatus restaurantUser "o1" .ready, .paymentSuccess "o1" none (some 1) 5,
          .accept deliveryUser "o1"]) "o1" = some o' ∧
      frame o' = frame (sampleOrder .ready .pending .cash none) :=
  (order_service_keeps_fixed_fields [sampleOrder .ready .pending .cash none]
    [.patchStatus restaurantUser "o1" .ready, .paymentSuccess "o1" none (some 1) 5,
      .accept deliveryUser "o1"] "o1" (sampleOrder .ready .pending .cash none) .ready {}
    (by unfold uniqueIds; decide) (by decide)).1

/-! ## C26: `PATCH .../status` with status delivered on a cash order -/

/-- C26 (the code at the failing input): the cash sample order, picked up and
not yet paid, receives `PATCH /api/orders/o1/status` with status `delivered`
from the owner of its restaurant.  The request is answered by the first route:
the stored order is `delivered` with paymentStatus still `pending`.  The
handler of the second route, which would have stored paymentStatus `paid`, is
not run.  From a requester without that restaurant the answer of the first
route is 404. -/
theorem patch_status_delivered_leaves_cash_unpaid :
    (findById (ordersRouterPatchStatus [claimedOrder .pending .cash] (some restaurantUser)
      "o1" .delivered 5).2 "o1").map (fun o => (o.paymentMethod, o.status, o.paymentStatus))
      = some (.cash, .delivered, .pending) ∧
    (findById (patchStatusSettlingCash [claimedOrder .pending .cash] "o1" .delivered 5).2
      "o1").map (fun o => (o.paymentMethod, o.status, o.paymentStatus))
      = some (.cash, .delivered, .paid) ∧
    ordersRouterPatchStatus [claimedOrder .pending .cash] (some deliveryUser) "o1"
      .delivered 5 = (⟨404, "Order not found", none⟩, [claimedOrder .pending .cash]) := by
  decide

/-! ## C27: a payment intent that cannot be created -/

/-- C27: when order creation has got as far as requesting the payment intent
(the card order is saved) and the payment service fails, the request is
answered with 400 `Payment initialization failed` and the collection holds the
new order with paymentStatus failed and status pending, with the items and
the total computed from the catalogue. -/
theorem intent_failure_keeps_order (svc : Services) (s : Store) (user : User)
    (details : UserDetails) (req : CreateRequest) (newId : String) (now : Nat)
    (hreq : (createOrder svc s user details req newId now).intentRequests ≠ [])
    (hfail : ∀ amount, svc.createIntent newId amount = none) :
    (createOrder svc s user details req newId now).response =
      ⟨400, "Payment initialization failed", none⟩ ∧
    ∃ (order : Order) (ms : List MenuItem),
      findById (createOrder svc s user details req newId now).store newId = some order ∧
      order.paymentStatus = .failed ∧ order.status = .pending ∧
      order.paymentMethod = .card ∧
      req.items.map (fun it => svc.menu it.menuItem) = ms.map some ∧
      order.items = List.zipWith orderItemOf ms req.items ∧
      order.totalAmount =
        (List.zipWith (fun m it => m.price * (it.quantity : Int)) ms req.items).sum
          + feeOrZero req.deliveryFee := by
  obtain ⟨rid, subtotal, orderItems, hok, heq⟩ := createOrder_requested hreq
  rw [heq] at hreq ⊢
  obtain ⟨hresp, order, h1, h2, h3, h4, h5, h6⟩ := placeOrder_intent_failed hreq hfail
  obtain ⟨ms, hm1, hm2, hm3⟩ := processItems_ok svc _ _ _ _ _ hok
  refine ⟨hresp, order, ms, h1, h2, h3, h4, hm1, ?_, ?_⟩
  · rw [h5, hm3]; simp
  · rw [h6, hm2]; simp

/-- Witness for `intent_failure_keeps_order`: the card order for two portions
of `m1` when the payment service is down. -/
theorem intent_failure_keeps_order_witness :
    (createOrder { sampleServices with createIntent := fun _ _ => none } [] customerUser
      customerDetails (sampleCreate "card" none none) "o1" 1).response =
      ⟨400, "Payment initialization failed", none⟩ :=
  (intent_failure_keeps_order { sampleServices with createIntent := fun _ _ => none } []
    customerUser customerDetails (sampleCreate "card" none none) "o1" 1 (by decide)
    (fun _ => rfl)).1

/-! ## C28: the next status the restaurant UI offers -/

/-- C28 (as stated, refuted): for the status strings `constructor` and
`  PROTO  ` (normalised to `__proto__`), `getNextStatus` returns an inherited
property, which is not `null` and is no status, while `canUpdateStatus` is
false. -/
theorem next_status_of_inherited_name :
    getNextStatus "constructor" = .inherited "constructor" ∧
    canUpdateStatus "constructor" = false ∧
    getNextStatus "  PROTO  " = .inherited "__proto__" ∧
    canUpdateStatus "  PROTO  " = false := by
  decide

/-- C28 (amended): for every status string whose normalised form is not a
property name that every object inherits (`constructor`, `__proto__`),
`getNextStatus` is `null` or the forward successor of the normalised status in
the transition graph (pending to confirmed, confirmed to preparing, preparing
to ready), and `canUpdateStatus` is true exactly when `getNextStatus` is not
`null`.  For the two inherited names `getNextStatus` returns the inherited
property and `canUpdateStatus` is false.  For ready, picked_up, delivered and
cancelled no next status is offered. -/
theorem next_status_is_forward_successor (s : String) :
    (normaliseStatus s ≠ "constructor" → normaliseStatus s ≠ "__proto__" →
      (getNextStatus s = .null ∨
        ∃ t a b, getNextStatus s = .status t ∧ parseStatus (normaliseStatus s) = some a ∧
          parseStatus t = some b ∧ specEdge a b = true ∧ b ≠ .cancelled) ∧
      (canUpdateStatus s = true ↔ getNextStatus s ≠ .null)) ∧
    (normaliseStatus s = "constructor" ∨ normaliseStatus s = "__proto__" →
      getNextStatus s = .inherited (normaliseStatus s) ∧ canUpdateStatus s = false) ∧
    (getNextStatus "pending" = .status "confirmed" ∧
      getNextStatus "confirmed" = .status "preparing" ∧
      getNextStatus "preparing" = .status "ready") ∧
    (getNextStatus "ready" = .null ∧ getNextStatus "picked_up" = .null ∧
      getNextStatus "delivered" = .null ∧ getNextStatus "cancelled" = .null) := by
  refine ⟨?_, ?_, by decide, by decide⟩
  · intro hc hp
    unfold getNextStatus canUpdateStatus
    generalize normaliseStatus s = n at hc hp
    by_cases h1 : n = "pending"
    · subst h1
      exact ⟨Or.inr ⟨"confirmed", .pending, .confirmed, by decide, by decide, by decide,
        by decide, by decide⟩, by decide⟩
    · by_cases h2 : n = "confirmed"
      · subst h2
        exact ⟨Or.inr ⟨"preparing", .confirmed, .preparing, by decide, by decide, by decide,
          by decide, by decide⟩, by decide⟩
      · by_cases h3 : n = "preparing"
        · subst h3
          exact ⟨Or.inr ⟨"ready", .preparing, .ready, by decide, by decide, by decide,
            by decide, by decide⟩, by decide⟩
        · simp [h1, h2, h3, hc, hp]
  · intro h
    unfold getNextStatus canUpdateStatus
    generalize normaliseStatus s = n at h
    rcases h with h | h <;> subst h <;> decide

/-! ## C30: prices and totals supplied by the client -/

/-- C30: two order-creation requests that differ only in the item prices and
the total supplied by the client are handled alike: with the same services,
collection, requester, id and time, order creation gives the same answer and
the same collection, so the stored orders have equal items and equal
totalAmount. -/
theorem client_prices_do_not_influence_order (svc : Services) (s : Store) (user : User)
    (details : UserDetails) (req1 req2 : CreateRequest) (newId : String) (now : Nat)
    (h : stripClient req1 = stripClient req2) :
    createOrder svc s user details req1 newId now
      = createOrder svc s user details req2 newId now ∧
    (createOrder svc s user details req1 newId now).store.map
        (fun o => (o.items, o.totalAmount))
      = (createOrder svc s user details req2 newId now).store.map
        (fun o => (o.items, o.totalAmount)) := by
  have heq : createOrder svc s user details req1 newId now
      = createOrder svc s user details req2 newId now := by
    rw [← createOrder_strip svc s user details req1, h, createOrder_strip]
  exact ⟨heq, by rw [heq]⟩

/-- Witness for `client_prices_do_not_influence_order`: the request with price 1
and total 1 against the request with price 500 and total 1050. -/
theorem client_prices_do_not_influence_order_witness :
    createOrder sampleServices [] customerUser customerDetails
        (sampleCreate "cash" (some 1) (some 1)) "o1" 1
      = createOrder sampleServices [] customerUser customerDetails
        (sampleCreate "cash" (some 500) (some 1050)) "o1" 1 :=
  (client_prices_do_not_influence_order sampleServices [] customerUser customerDetails
    (sampleCreate "cash" (some 1) (some 1)) (sampleCreate "cash" (some 500) (some 1050))
    "o1" 1 (by decide)).1

end DeliverySystem
